import Mathlib

/-!
Verification development for the OpenClaw secrets subsystem.

The definitions below are a shallow embedding of the TypeScript sources:

* src/secrets/target-registry-pattern.ts (path-pattern tokens: parse, match,
  materialize, expand)
* src/secrets/path-utils.ts (getPath and the strict tree mutations)
* src/secrets/shared.ts (parseDotPath, toDotPath, isNonEmptyString, isRecord)
* src/secrets/plan.ts (plan-target validation)
* src/secrets/target-registry-query.ts (registry index and plan-target
  resolution, audit exit-code policy)
* src/secrets/apply.ts (commit/rollback step of runSecretsApply)
* src/secrets/runtime-shared.ts (resolver context, warning dedup, assignment
  collection)
* src/secrets/runtime-config-collectors-core.ts (collectGatewayAssignments)
* src/secrets/runtime-config-collectors-channels.ts (collectTelegramAssignments
  in its tokenFile-aware revision, collectGoogleChatAccountAssignment)
* src/secrets/runtime.ts (resolveCommandSecretsFromActiveRuntimeSnapshot)
* src/gateway/server-methods/secrets.ts (createSecretsHandlers)
* extensions/tlon/src/outbound-session.ts (resolveTlonOutboundSession)

JS objects are modelled as association lists of string keys (first match wins,
mirroring unique JS keys), JS `undefined` as `Option.none`, and mutation as
functional state passing.
-/

namespace OpenClaw

/-- JSON-like configuration value, a discriminated sum mirroring the untyped
JS values the secrets subsystem walks. -/
inductive Value where
  | vNull : Value
  | vBool (b : Bool) : Value
  | vNum (n : Int) : Value
  | vStr (s : String) : Value
  | vArr (items : List Value) : Value
  | vObj (fields : List (String × Value)) : Value

/-- First-match field lookup on an object field list (JS property read). -/
def lookupField (fields : List (String × Value)) (key : String) : Option Value :=
  match fields with
  | [] => none
  | (k, v) :: rest => if k = key then some v else lookupField rest key

/-- Presence of a key (JS Object.prototype.hasOwnProperty). -/
def hasKey (fields : List (String × Value)) (key : String) : Bool :=
  (lookupField fields key).isSome

/-- isRecord from src/secrets/shared.ts: a non-null, non-array object. -/
def isRecordV : Value → Bool
  | Value.vObj _ => true
  | _ => false

/-- Property read on an arbitrary value: only objects have fields, every
other value yields undefined. -/
def objLookup (v : Value) (key : String) : Option Value :=
  match v with
  | Value.vObj fields => lookupField fields key
  | _ => none

/-- Property read through a possibly-undefined cursor (JS optional access). -/
def optLookup (v : Option Value) (key : String) : Option Value :=
  match v with
  | some value => objLookup value key
  | none => none

/-- JS whitespace, for the trim embedding. -/
def isWsChar (c : Char) : Bool :=
  c = ' ' || (9 ≤ c.toNat && c.toNat ≤ 13)

/-- Character-list trim. -/
def trimCharList (cs : List Char) : List Char :=
  ((cs.dropWhile isWsChar).reverse.dropWhile isWsChar).reverse

/-- Embedding of JS String.prototype.trim, kept structurally recursive so
concrete strings evaluate. -/
def jsTrim (s : String) : String :=
  ⟨trimCharList s.data⟩

/-- Split accumulator for the single-character split embedding. -/
def splitOnCharAux (cs : List Char) (sep : Char) (acc : List Char) : List (List Char) :=
  match cs with
  | [] => [acc.reverse]
  | c :: rest =>
    if c = sep then acc.reverse :: splitOnCharAux rest sep []
    else splitOnCharAux rest sep (c :: acc)

/-- Embedding of JS String.prototype.split with a one-character separator. -/
def splitOnChar (s : String) (sep : Char) : List String :=
  (splitOnCharAux s.data sep []).map (fun cs => ⟨cs⟩)

/-- Embedding of JS String.prototype.toLowerCase (ASCII). -/
def jsToLower (s : String) : String :=
  ⟨s.data.map Char.toLower⟩

/-- Whether the first list leads the second (character-level startsWith). -/
def startsWithChars : List Char → List Char → Bool
  | [], _ => true
  | _ :: _, [] => false
  | c :: cs, d :: ds => c = d && startsWithChars cs ds

/-- Embedding of JS String.prototype.startsWith. -/
def jsStartsWith (s tag : String) : Bool :=
  startsWithChars tag.data s.data

/-- Embedding of JS String.prototype.endsWith. -/
def jsEndsWith (s tag : String) : Bool :=
  startsWithChars tag.data.reverse s.data.reverse

/-- Embedding of JS String.prototype.slice from a character offset. -/
def jsDrop (s : String) (n : Nat) : String :=
  ⟨s.data.drop n⟩

/-- Embedding of dropping a character suffix of the given length. -/
def jsDropRight (s : String) (n : Nat) : String :=
  ⟨s.data.take (s.data.length - n)⟩

/-- Embedding of JS String.prototype.includes for one character. -/
def jsContainsChar (s : String) (c : Char) : Bool :=
  s.data.contains c

/-- isNonEmptyString from src/secrets/shared.ts on a Value. -/
def isNonEmptyStringV : Option Value → Bool
  | some (Value.vStr s) => jsTrim s ≠ ""
  | _ => false

/-- JS regular expression test for digit-only strings (pattern of one or
more decimal digits, as used by the path engine). -/
def isDigitString (s : String) : Bool :=
  s ≠ "" && s.toList.all Char.isDigit

/-- Decimal digit character for a value below ten. -/
def digitChar (n : Nat) : Char :=
  Char.ofNat (48 + n)

/-- Decimal character list of a natural number (embedding of JS
String(index), most significant digit first). -/
def natToDecChars (n : Nat) : List Char :=
  if n < 10 then [digitChar n]
  else natToDecChars (n / 10) ++ [digitChar (n % 10)]
termination_by n
decreasing_by
  exact Nat.div_lt_self (by omega) (by norm_num)

/-- Decimal string of a natural number (embedding of JS String(index)). -/
def natToDecString (n : Nat) : String :=
  String.mk (natToDecChars n)

/-- parseDotPath from src/secrets/shared.ts: split on dots, trim, drop
empty segments. -/
def parseDotPath (pathname : String) : List String :=
  ((splitOnChar pathname (Char.ofNat 46)).map jsTrim).filter (fun segment => segment ≠ "")

/-- toDotPath from src/secrets/shared.ts (dot join). -/
def toDotPath : List String → String
  | [] => ""
  | [s] => s
  | s :: rest => s ++ "." ++ toDotPath rest

/-- Path-pattern token from src/secrets/target-registry-pattern.ts. -/
inductive PathPatternToken where
  | literal (value : String) : PathPatternToken
  | wildcard : PathPatternToken
  | array (field : String) : PathPatternToken
deriving DecidableEq

/-- parsePathPattern from src/secrets/target-registry-pattern.ts; the
invalid-array-field throw is modelled as none. -/
def parsePathPattern (pathPattern : String) : Option (List PathPatternToken) :=
  let segments := parseDotPath pathPattern
  segments.foldr
    (fun segment acc =>
      match acc with
      | none => none
      | some tokens =>
        if segment = "*" then some (PathPatternToken.wildcard :: tokens)
        else if jsEndsWith segment "[]" then
          let field := jsTrim (jsDropRight segment 2)
          if field = "" then none else some (PathPatternToken.array field :: tokens)
        else some (PathPatternToken.literal segment :: tokens))
    (some [])

/-- matchPathTokens from src/secrets/target-registry-pattern.ts: walk the
tokens over a concrete segment list, returning the captures, with the final
check that every segment was consumed. -/
def matchPathTokens (segments : List String) (tokens : List PathPatternToken) :
    Option (List String) :=
  match tokens, segments with
  | [], [] => some []
  | [], _ :: _ => none
  | PathPatternToken.literal value :: rest, s :: ss =>
    if s = value then matchPathTokens ss rest else none
  | PathPatternToken.literal _ :: _, [] => none
  | PathPatternToken.wildcard :: rest, s :: ss =>
    if s = "" then none
    else
      match matchPathTokens ss rest with
      | some captures => some (s :: captures)
      | none => none
  | PathPatternToken.wildcard :: _, [] => none
  | PathPatternToken.array field :: rest, s0 :: s1 :: ss =>
    if s0 = field then
      if isDigitString s1 then
        match matchPathTokens ss rest with
        | some captures => some (s1 :: captures)
        | none => none
      else none
    else none
  | PathPatternToken.array _ :: _, [] => none
  | PathPatternToken.array _ :: _, [_] => none

/-- materializePathTokens from src/secrets/target-registry-pattern.ts. -/
def materializePathTokens (tokens : List PathPatternToken) (captures : List String) :
    Option (List String) :=
  match tokens, captures with
  | [], [] => some []
  | [], _ :: _ => none
  | PathPatternToken.literal value :: rest, cs =>
    match materializePathTokens rest cs with
    | some out => some (value :: out)
    | none => none
  | PathPatternToken.wildcard :: rest, c :: cs =>
    if c = "" then none
    else
      match materializePathTokens rest cs with
      | some out => some (c :: out)
      | none => none
  | PathPatternToken.wildcard :: _, [] => none
  | PathPatternToken.array field :: rest, c :: cs =>
    if isDigitString c then
      match materializePathTokens rest cs with
      | some out => some (field :: c :: out)
      | none => none
    else none
  | PathPatternToken.array _ :: _, [] => none

/-- One hit of expandPathTokens: concrete segments, wildcard/array captures
and the value found at the leaf (undefined when the leaf key is absent). -/
structure ExpandedPathMatch where
  segments : List String
  captures : List String
  value : Option Value

mutual

/-- The walk closure of expandPathTokens from
src/secrets/target-registry-pattern.ts, with the accumulated segments and
captures made explicit. -/
def walkExpand (node : Option Value) (tokens : List PathPatternToken)
    (segments captures : List String) : List ExpandedPathMatch :=
  match tokens with
  | [] => [⟨segments, captures, node⟩]
  | token :: rest =>
    match node with
    | some (Value.vObj fields) =>
      match token with
      | PathPatternToken.literal value =>
        if rest.isEmpty then [⟨segments ++ [value], captures, lookupField fields value⟩]
        else
          if hasKey fields value then
            walkExpand (lookupField fields value) rest (segments ++ [value]) captures
          else []
      | PathPatternToken.wildcard =>
        walkExpandEntries fields rest segments captures
      | PathPatternToken.array field =>
        match lookupField fields field with
        | some (Value.vArr items) =>
          walkExpandItems items 0 field rest segments captures
        | _ => []
    | _ => []
termination_by (2 * tokens.length, 0)

/-- Iteration over the entries of a mapping for a wildcard token. -/
def walkExpandEntries (fields : List (String × Value)) (rest : List PathPatternToken)
    (segments captures : List String) : List ExpandedPathMatch :=
  match fields with
  | [] => []
  | (key, value) :: more =>
    (if rest.isEmpty then [⟨segments ++ [key], captures ++ [key], some value⟩]
     else walkExpand (some value) rest (segments ++ [key]) (captures ++ [key])) ++
      walkExpandEntries more rest segments captures
termination_by (2 * rest.length + 1, fields.length)

/-- Iteration over the items of an array field for an array token, carrying
the running index. -/
def walkExpandItems (items : List Value) (index : Nat) (field : String)
    (rest : List PathPatternToken) (segments captures : List String) :
    List ExpandedPathMatch :=
  match items with
  | [] => []
  | item :: more =>
    (if rest.isEmpty then
       [⟨segments ++ [field, natToDecString index], captures ++ [natToDecString index],
         some item⟩]
     else
       walkExpand (some item) rest (segments ++ [field, natToDecString index])
         (captures ++ [natToDecString index])) ++
      walkExpandItems more (index + 1) field rest segments captures
termination_by (2 * rest.length + 1, items.length)

end

/-- expandPathTokens from src/secrets/target-registry-pattern.ts. -/
def expandPathTokens (root : Value) (tokens : List PathPatternToken) :
    List ExpandedPathMatch :=
  walkExpand (some root) tokens [] []

mutual

/-- Structural deep equality of values, the embedding of isDeepStrictEqual
as used by the strict path mutations; the model keeps object fields in a
canonical order so ordered comparison coincides with key-set comparison. -/
def valueBeq : Value → Value → Bool
  | Value.vNull, Value.vNull => true
  | Value.vBool a, Value.vBool b => a == b
  | Value.vNum a, Value.vNum b => a == b
  | Value.vStr a, Value.vStr b => a == b
  | Value.vArr xs, Value.vArr ys => valueListBeq xs ys
  | Value.vObj xs, Value.vObj ys => valueFieldsBeq xs ys
  | _, _ => false

/-- Elementwise deep equality of arrays. -/
def valueListBeq : List Value → List Value → Bool
  | [], [] => true
  | x :: xs, y :: ys => valueBeq x y && valueListBeq xs ys
  | _, _ => false

/-- Fieldwise deep equality of objects. -/
def valueFieldsBeq : List (String × Value) → List (String × Value) → Bool
  | [], [] => true
  | (k, v) :: xs, (k2, v2) :: ys => k == k2 && valueBeq v v2 && valueFieldsBeq xs ys
  | _, _ => false

end

/-- Deep equality lifted to possibly-undefined values (isDeepStrictEqual
with JS undefined on either side). -/
def optValueBeq : Option Value → Option Value → Bool
  | some a, some b => valueBeq a b
  | none, none => true
  | _, _ => false

/-- Decimal value of a digit-only segment (JS Number.parseInt base 10 on a
string already known to match the digit pattern). -/
def parseDecNat (s : String) : Nat :=
  s.toList.foldl (fun acc c => acc * 10 + (c.toNat - 48)) 0

/-- Error classes raised by the strict path mutations in
src/secrets/path-utils.ts; messages are collapsed to their class. -/
inductive PathErr where
  | emptyPath : PathErr
  | invalidArrayIndexSegment : PathErr
  | invalidPathShape : PathErr
  | missingSegment : PathErr
deriving DecidableEq

/-- Cursor walk of getPath from src/secrets/path-utils.ts; the cursor is an
Option because reads of absent keys yield undefined. -/
def getPathCursor (cursor : Option Value) : List String → Option Value
  | [] => cursor
  | segment :: rest =>
    match cursor with
    | some (Value.vArr items) =>
      if isDigitString segment then getPathCursor (items.get? (parseDecNat segment)) rest
      else none
    | some (Value.vObj fields) => getPathCursor (lookupField fields segment) rest
    | _ => none

/-- getPath from src/secrets/path-utils.ts. -/
def getPath (root : Value) (segments : List String) : Option Value :=
  match segments with
  | [] => none
  | _ :: _ => getPathCursor (some root) segments

/-- Array element assignment with JS hole semantics: assigning beyond the
current length pads the array (holes read back as empty slots, which the
mutation code treats like null). -/
def listSetPad : List Value → Nat → Value → List Value
  | [], 0, v => [v]
  | [], n + 1, v => Value.vNull :: listSetPad [] n v
  | _ :: rest, 0, v => v :: rest
  | x :: rest, n + 1, v => x :: listSetPad rest n v

/-- JS object property assignment on the field list: overwrite the existing
key in place, else append. -/
def setFieldFn : List (String × Value) → String → Value → List (String × Value)
  | [], key, v => [(key, v)]
  | (k, w) :: rest, key, v =>
    if k = key then (key, v) :: rest else (k, w) :: setFieldFn rest key v

/-- JS delete of an object property on the field list. -/
def removeField : List (String × Value) → String → List (String × Value)
  | [], _ => []
  | (k, w) :: rest, key => if k = key then rest else (k, w) :: removeField rest key

/-- Container class expected for the next path segment
(expectedContainer in src/secrets/path-utils.ts). -/
def nextNeedsArray (nextSegment : String) : Bool :=
  isDigitString nextSegment

/-- Whether an existing child is consistent with the container class the
next segment needs (the shape check of setPathCreateStrict). -/
def childShapeOk (needsArray : Bool) : Value → Bool
  | Value.vArr _ => needsArray
  | Value.vObj _ => !needsArray
  | _ => false

/-- Recursive body of setPathCreateStrict from src/secrets/path-utils.ts:
walks the cursor, creating intermediate containers for absent or null
children, and writes the leaf unless it is already deep-equal. -/
def setCreateGo (cursor : Value) (segments : List String) (value : Value) :
    Except PathErr (Value × Bool) :=
  match segments with
  | [] => Except.error PathErr.emptyPath
  | [leaf] =>
    match cursor with
    | Value.vArr items =>
      if isDigitString leaf then
        let idx := parseDecNat leaf
        if optValueBeq (items.get? idx) (some value) then Except.ok (Value.vArr items, false)
        else Except.ok (Value.vArr (listSetPad items idx value), true)
      else Except.error PathErr.invalidArrayIndexSegment
    | Value.vObj fields =>
      if optValueBeq (lookupField fields leaf) (some value) then
        Except.ok (Value.vObj fields, false)
      else Except.ok (Value.vObj (setFieldFn fields leaf value), true)
    | _ => Except.error PathErr.invalidPathShape
  | segment :: next :: rest =>
    let needsArray := nextNeedsArray next
    let emptyChild := if needsArray then Value.vArr [] else Value.vObj []
    match cursor with
    | Value.vArr items =>
      if isDigitString segment then
        let idx := parseDecNat segment
        match items.get? idx with
        | none =>
          match setCreateGo emptyChild (next :: rest) value with
          | Except.ok (child, _) => Except.ok (Value.vArr (listSetPad items idx child), true)
          | Except.error e => Except.error e
        | some Value.vNull =>
          match setCreateGo emptyChild (next :: rest) value with
          | Except.ok (child, _) => Except.ok (Value.vArr (listSetPad items idx child), true)
          | Except.error e => Except.error e
        | some existing =>
          if childShapeOk needsArray existing then
            match setCreateGo existing (next :: rest) value with
            | Except.ok (child, changed) =>
              Except.ok (Value.vArr (listSetPad items idx child), changed)
            | Except.error e => Except.error e
          else Except.error PathErr.invalidPathShape
      else Except.error PathErr.invalidArrayIndexSegment
    | Value.vObj fields =>
      match lookupField fields segment with
      | none =>
        match setCreateGo emptyChild (next :: rest) value with
        | Except.ok (child, _) => Except.ok (Value.vObj (setFieldFn fields segment child), true)
        | Except.error e => Except.error e
      | some Value.vNull =>
        match setCreateGo emptyChild (next :: rest) value with
        | Except.ok (child, _) => Except.ok (Value.vObj (setFieldFn fields segment child), true)
        | Except.error e => Except.error e
      | some existing =>
        if childShapeOk needsArray existing then
          match setCreateGo existing (next :: rest) value with
          | Except.ok (child, changed) =>
            Except.ok (Value.vObj (setFieldFn fields segment child), changed)
          | Except.error e => Except.error e
        else Except.error PathErr.invalidPathShape
    | _ => Except.error PathErr.invalidPathShape

/-- setPathCreateStrict from src/secrets/path-utils.ts. -/
def setPathCreateStrict (root : Value) (segments : List String) (value : Value) :
    Except PathErr (Value × Bool) :=
  match segments with
  | [] => Except.error PathErr.emptyPath
  | _ :: _ => setCreateGo root segments value

/-- Recursive body of setPathExistingStrict from src/secrets/path-utils.ts:
like the create variant but every traversed segment must already exist. -/
def setExistingGo (cursor : Value) (segments : List String) (value : Value) :
    Except PathErr (Value × Bool) :=
  match segments with
  | [] => Except.error PathErr.emptyPath
  | [leaf] =>
    match cursor with
    | Value.vArr items =>
      if isDigitString leaf then
        let idx := parseDecNat leaf
        match items.get? idx with
        | none => Except.error PathErr.missingSegment
        | some existing =>
          if valueBeq existing value then Except.ok (Value.vArr items, false)
          else Except.ok (Value.vArr (listSetPad items idx value), true)
      else Except.error PathErr.invalidArrayIndexSegment
    | Value.vObj fields =>
      match lookupField fields leaf with
      | none => Except.error PathErr.missingSegment
      | some existing =>
        if valueBeq existing value then Except.ok (Value.vObj fields, false)
        else Except.ok (Value.vObj (setFieldFn fields leaf value), true)
    | _ => Except.error PathErr.invalidPathShape
  | segment :: next :: rest =>
    match cursor with
    | Value.vArr items =>
      if isDigitString segment then
        match items.get? (parseDecNat segment) with
        | none => Except.error PathErr.missingSegment
        | some child =>
          match setExistingGo child (next :: rest) value with
          | Except.ok (child2, changed) =>
            Except.ok (Value.vArr (listSetPad items (parseDecNat segment) child2), changed)
          | Except.error e => Except.error e
      else Except.error PathErr.invalidArrayIndexSegment
    | Value.vObj fields =>
      match lookupField fields segment with
      | none => Except.error PathErr.missingSegment
      | some child =>
        match setExistingGo child (next :: rest) value with
        | Except.ok (child2, changed) =>
          Except.ok (Value.vObj (setFieldFn fields segment child2), changed)
        | Except.error e => Except.error e
    | _ => Except.error PathErr.invalidPathShape

/-- setPathExistingStrict from src/secrets/path-utils.ts. -/
def setPathExistingStrict (root : Value) (segments : List String) (value : Value) :
    Except PathErr (Value × Bool) :=
  match segments with
  | [] => Except.error PathErr.emptyPath
  | _ :: _ => setExistingGo root segments value

/-- Recursive body of deletePathStrict from src/secrets/path-utils.ts: a
traversal through an absent child fails with the shape error the JS code
raises on its next loop iteration; deleting an array element splices. -/
def deleteGo (cursor : Value) (segments : List String) : Except PathErr (Value × Bool) :=
  match segments with
  | [] => Except.error PathErr.emptyPath
  | [leaf] =>
    match cursor with
    | Value.vArr items =>
      if isDigitString leaf then
        let idx := parseDecNat leaf
        if idx < items.length then Except.ok (Value.vArr (items.eraseIdx idx), true)
        else Except.ok (Value.vArr items, false)
      else Except.error PathErr.invalidArrayIndexSegment
    | Value.vObj fields =>
      if hasKey fields leaf then Except.ok (Value.vObj (removeField fields leaf), true)
      else Except.ok (Value.vObj fields, false)
    | _ => Except.error PathErr.invalidPathShape
  | segment :: next :: rest =>
    match cursor with
    | Value.vArr items =>
      if isDigitString segment then
        match items.get? (parseDecNat segment) with
        | none => Except.error PathErr.invalidPathShape
        | some child =>
          match deleteGo child (next :: rest) with
          | Except.ok (child2, changed) =>
            Except.ok (Value.vArr (listSetPad items (parseDecNat segment) child2), changed)
          | Except.error e => Except.error e
      else Except.error PathErr.invalidArrayIndexSegment
    | Value.vObj fields =>
      match lookupField fields segment with
      | none => Except.error PathErr.invalidPathShape
      | some child =>
        match deleteGo child (next :: rest) with
        | Except.ok (child2, changed) =>
          Except.ok (Value.vObj (setFieldFn fields segment child2), changed)
        | Except.error e => Except.error e
    | _ => Except.error PathErr.invalidPathShape

/-- deletePathStrict from src/secrets/path-utils.ts. -/
def deletePathStrict (root : Value) (segments : List String) : Except PathErr (Value × Bool) :=
  match segments with
  | [] => Except.error PathErr.emptyPath
  | _ :: _ => deleteGo root segments

/-- Config file a registry target lives in
(src/secrets/target-registry-types.ts). -/
inductive SecretTargetConfigFile where
  | mainConfig : SecretTargetConfigFile
  | authProfiles : SecretTargetConfigFile
deriving DecidableEq

/-- Compiled registry entry (src/secrets/target-registry-pattern.ts), with
the fields the plan-target resolution reads. -/
structure CompiledTargetRegistryEntry where
  id : String
  targetType : String
  targetTypeAliases : List String := []
  configFile : SecretTargetConfigFile
  pathTokens : List PathPatternToken
  refPathTokens : Option (List PathPatternToken) := none
  includeInPlan : Bool := true
  providerIdPathSegmentIndex : Option Nat := none
  accountIdPathSegmentIndex : Option Nat := none
deriving DecidableEq

/-- Resolved plan target (src/secrets/target-registry-types.ts). -/
structure ResolvedPlanTarget where
  entry : CompiledTargetRegistryEntry
  pathSegments : List String
  refPathSegments : Option (List String) := none
  providerId : Option String := none
  accountId : Option String := none
deriving DecidableEq

/-- toResolvedPlanTarget from src/secrets/target-registry-query.ts; the JS
spread with a truthiness guard drops empty-string extracted ids. -/
def toResolvedPlanTarget (entry : CompiledTargetRegistryEntry) (pathSegments : List String)
    (captures : List String) : Option ResolvedPlanTarget :=
  let providerId :=
    match entry.providerIdPathSegmentIndex with
    | some i => (pathSegments.get? i).filter (fun s => s ≠ "")
    | none => none
  let accountId :=
    match entry.accountIdPathSegmentIndex with
    | some i => (pathSegments.get? i).filter (fun s => s ≠ "")
    | none => none
  match entry.refPathTokens with
  | some refTokens =>
    match materializePathTokens refTokens captures with
    | some refSegments =>
      some ⟨entry, pathSegments, some refSegments, providerId, accountId⟩
    | none => none
  | none => some ⟨entry, pathSegments, none, providerId, accountId⟩

/-- The by-targetType index of buildTargetTypeIndex in
src/secrets/target-registry-query.ts: entries in registry order whose type
or alias matches. -/
def targetsByType (registry : List CompiledTargetRegistryEntry) (t : String) :
    List CompiledTargetRegistryEntry :=
  registry.filter (fun e => e.targetType = t || e.targetTypeAliases.contains t)

/-- isKnownSecretTargetType from src/secrets/target-registry-query.ts
(undefined input is not a string and is unknown). -/
def isKnownSecretTargetType (registry : List CompiledTargetRegistryEntry)
    (t : Option String) : Bool :=
  match t with
  | some s => !(targetsByType registry s).isEmpty
  | none => false

/-- Caller-supplied provider/account id check inside
resolvePlanTargetAgainstRegistry: a non-blank supplied id must equal the
extracted one. -/
def candidateIdMatches (supplied extracted : Option String) : Bool :=
  match supplied with
  | some s => if jsTrim s ≠ "" then extracted = some s else true
  | none => true

/-- The entry loop of resolvePlanTargetAgainstRegistry from
src/secrets/target-registry-query.ts. -/
def resolvePlanTargetLoop (entries : List CompiledTargetRegistryEntry)
    (pathSegments : List String) (providerId accountId : Option String) :
    Option ResolvedPlanTarget :=
  match entries with
  | [] => none
  | entry :: rest =>
    if !entry.includeInPlan then resolvePlanTargetLoop rest pathSegments providerId accountId
    else
      match matchPathTokens pathSegments entry.pathTokens with
      | none => resolvePlanTargetLoop rest pathSegments providerId accountId
      | some captures =>
        match toResolvedPlanTarget entry pathSegments captures with
        | none => resolvePlanTargetLoop rest pathSegments providerId accountId
        | some resolved =>
          if candidateIdMatches providerId resolved.providerId &&
              candidateIdMatches accountId resolved.accountId then
            some resolved
          else resolvePlanTargetLoop rest pathSegments providerId accountId

/-- resolvePlanTargetAgainstRegistry from
src/secrets/target-registry-query.ts. -/
def resolvePlanTargetAgainstRegistry (registry : List CompiledTargetRegistryEntry)
    (t : String) (pathSegments : List String) (providerId accountId : Option String) :
    Option ResolvedPlanTarget :=
  let entries := targetsByType registry t
  if entries.isEmpty then none
  else resolvePlanTargetLoop entries pathSegments providerId accountId

/-- Candidate plan target as received by resolveValidatedPlanTarget in
src/secrets/plan.ts (absent JS fields are none). -/
structure PlanTargetCandidate where
  type : Option String := none
  path : Option String := none
  pathSegments : Option (List String) := none
  providerId : Option String := none
  accountId : Option String := none
  agentId : Option String := none
  authProfileProvider : Option String := none
deriving DecidableEq

/-- FORBIDDEN_PATH_SEGMENTS and hasForbiddenPathSegment from
src/secrets/plan.ts. -/
def hasForbiddenPathSegment (segments : List String) : Bool :=
  segments.any (fun s => s = "__proto__" || s = "prototype" || s = "constructor")

/-- The canonical segment list of a candidate plan target: a non-empty
pathSegments array is trimmed and blank-filtered, else the trimmed path is
parsed (the segments computation in resolveValidatedPlanTarget). -/
def planCandidateSegments (candidate : PlanTargetCandidate) (path : String) : List String :=
  match candidate.pathSegments with
  | some segs =>
    if segs.length > 0 then (segs.map jsTrim).filter (fun s => s ≠ "")
    else parseDotPath path
  | none => parseDotPath path

/-- resolveValidatedPlanTarget from src/secrets/plan.ts. -/
def resolveValidatedPlanTarget (registry : List CompiledTargetRegistryEntry)
    (candidate : PlanTargetCandidate) : Option ResolvedPlanTarget :=
  if !isKnownSecretTargetType registry candidate.type then none
  else
    let path :=
      match candidate.path with
      | some p => jsTrim p
      | none => ""
    if path = "" then none
    else
      let segments := planCandidateSegments candidate path
      if segments.isEmpty || hasForbiddenPathSegment segments || path ≠ toDotPath segments then
        none
      else
        resolvePlanTargetAgainstRegistry registry (candidate.type.getD "") segments
          candidate.providerId candidate.accountId

/-- The compiled models.providers.*.apiKey registry entry (the shape listed
in docs/reference/secretref-credential-surface.md), used as a concrete
registry sample. -/
def sampleModelsProvidersEntry : CompiledTargetRegistryEntry :=
  { id := "models.providers.*.apiKey", targetType := "models.providers.apiKey",
    targetTypeAliases := ["models.providers.*.apiKey"],
    configFile := SecretTargetConfigFile.mainConfig,
    pathTokens := [PathPatternToken.literal "models", PathPatternToken.literal "providers",
      PathPatternToken.wildcard, PathPatternToken.literal "apiKey"],
    providerIdPathSegmentIndex := some 2 }

/-- Audit finding codes (src/secrets/audit.ts). -/
inductive SecretsAuditCode where
  | PLAINTEXT_FOUND : SecretsAuditCode
  | REF_UNRESOLVED : SecretsAuditCode
  | REF_SHADOWED : SecretsAuditCode
  | LEGACY_RESIDUE : SecretsAuditCode
deriving DecidableEq

/-- Audit finding (src/secrets/audit.ts), carrying the fields the exit-code
policy can observe. -/
structure SecretsAuditFinding where
  code : SecretsAuditCode
  file : String := ""
  jsonPath : String := ""
  message : String := ""
deriving DecidableEq

/-- Audit summary counts (src/secrets/audit.ts). -/
structure SecretsAuditSummary where
  plaintextCount : Nat
  unresolvedRefCount : Nat
  shadowedRefCount : Nat
  legacyResidueCount : Nat
deriving DecidableEq

/-- summarizeFindings from src/secrets/audit.ts. -/
def summarizeFindings (findings : List SecretsAuditFinding) : SecretsAuditSummary :=
  { plaintextCount := (findings.filter (fun f => f.code = SecretsAuditCode.PLAINTEXT_FOUND)).length
    unresolvedRefCount := (findings.filter (fun f => f.code = SecretsAuditCode.REF_UNRESOLVED)).length
    shadowedRefCount := (findings.filter (fun f => f.code = SecretsAuditCode.REF_SHADOWED)).length
    legacyResidueCount := (findings.filter (fun f => f.code = SecretsAuditCode.LEGACY_RESIDUE)).length }

/-- Audit status (src/secrets/audit.ts). -/
inductive SecretsAuditStatus where
  | clean : SecretsAuditStatus
  | findings : SecretsAuditStatus
  | unresolved : SecretsAuditStatus
deriving DecidableEq

/-- Audit report as assembled at the end of runSecretsAudit. -/
structure SecretsAuditReport where
  status : SecretsAuditStatus
  summary : SecretsAuditSummary
  findings : List SecretsAuditFinding
deriving DecidableEq

/-- The report-assembly tail of runSecretsAudit from src/secrets/audit.ts:
summary from the collected findings and the three-way status. -/
def mkSecretsAuditReport (findings : List SecretsAuditFinding) : SecretsAuditReport :=
  let summary := summarizeFindings findings
  let status :=
    if summary.unresolvedRefCount > 0 then SecretsAuditStatus.unresolved
    else if findings.length > 0 then SecretsAuditStatus.findings
    else SecretsAuditStatus.clean
  ⟨status, summary, findings⟩

/-- resolveSecretsAuditExitCode from src/secrets/audit.ts. -/
def resolveSecretsAuditExitCode (report : SecretsAuditReport) (check : Bool) : Nat :=
  if report.summary.unresolvedRefCount > 0 then 2
  else if check && report.findings.length > 0 then 1
  else 0

/-- File-system state for the apply commit model: a finite map from path to
file content, as an association list. -/
def FileSystemState : Type :=
  List (String × String)

/-- File content at a path, none when the file does not exist. -/
def fsGet (fs : FileSystemState) (p : String) : Option String :=
  match fs with
  | [] => none
  | (q, c) :: rest => if q = p then some c else fsGet rest p

/-- Remove a file (fs.rmSync with force). -/
def fsRemove (fs : FileSystemState) (p : String) : FileSystemState :=
  fs.filter (fun entry => entry.1 ≠ p)

/-- Write full file content at a path; writeTextFileAtomic makes the write
all-or-nothing, so a write is a single map update. -/
def fsSet (fs : FileSystemState) (p : String) (content : String) : FileSystemState :=
  (p, content) :: fsRemove fs p

/-- captureFileSnapshot from src/secrets/apply.ts (content and existence;
the file mode is not needed for byte-identity of content). -/
structure FileSnapshot where
  existed : Bool
  content : String
deriving DecidableEq

/-- captureFileSnapshot from src/secrets/apply.ts. -/
def captureFileSnapshot (fs : FileSystemState) (p : String) : FileSnapshot :=
  match fsGet fs p with
  | some c => ⟨true, c⟩
  | none => ⟨false, ""⟩

/-- restoreFileSnapshot from src/secrets/apply.ts: recreate the prior
content, or remove the file when it did not exist. -/
def restoreFileSnapshot (fs : FileSystemState) (p : String) (snapshot : FileSnapshot) :
    FileSystemState :=
  if snapshot.existed then fsSet fs p snapshot.content else fsRemove fs p

/-- The snapshot map built by the capture closure in runSecretsApply. Every
snapshot is taken from the same pre-commit state, so the first-capture-wins
dedup of the JS Map is immaterial and the list may carry duplicates. -/
def captureSnapshots (fs : FileSystemState) (paths : List String) :
    List (String × FileSnapshot) :=
  paths.map (fun p => (p, captureFileSnapshot fs p))

/-- The restore loop of the catch branch in runSecretsApply. -/
def restoreAllSnapshots (fs : FileSystemState) (snapshots : List (String × FileSnapshot)) :
    FileSystemState :=
  match snapshots with
  | [] => fs
  | (p, snapshot) :: rest => restoreAllSnapshots (restoreFileSnapshot fs p snapshot) rest

/-- One pending write of the commit step (path and rendered content). -/
structure ApplyWrite where
  path : String
  content : String
deriving DecidableEq

/-- The try-block write sequence of runSecretsApply, with fault injection:
the write at position failAt raises before mutating (both the main-config
writer and writeTextFileAtomic are all-or-nothing), and later writes do not
run. Returns the state and the index of the original error, if any. -/
def performApplyWrites (fs : FileSystemState) (writes : List (String × String))
    (failAt : Option Nat) (index : Nat) : FileSystemState × Option Nat :=
  match writes with
  | [] => (fs, none)
  | (p, c) :: rest =>
    if failAt = some index then (fs, some index)
    else performApplyWrites (fsSet fs p c) rest failAt (index + 1)

/-- The error thrown by runSecretsApply on a commit failure: a wrapping
error whose cause is the original error (identified by its write index). -/
structure SecretsApplyFailure where
  cause : Nat
deriving DecidableEq

/-- The commit step of runSecretsApply from src/secrets/apply.ts: snapshot
the main config path and every other write target, run the writes in order,
and on any error restore every snapshot and propagate the original error as
the cause. -/
def commitSecretsApply (fs : FileSystemState) (configPath configContent : String)
    (writes : List ApplyWrite) (failAt : Option Nat) :
    FileSystemState × Except SecretsApplyFailure Unit :=
  let snapshots := captureSnapshots fs (configPath :: writes.map (fun w => w.path))
  let allWrites := (configPath, configContent) :: writes.map (fun w => (w.path, w.content))
  match performApplyWrites fs allWrites failAt 0 with
  | (fsAfter, none) => (fsAfter, Except.ok ())
  | (fsAfter, some k) => (restoreAllSnapshots fsAfter snapshots, Except.error ⟨k⟩)

/-- Result mode of runSecretsApply. -/
inductive SecretsApplyMode where
  | dryRun : SecretsApplyMode
  | write : SecretsApplyMode
deriving DecidableEq

/-- Result of runSecretsApply (mode and changed flag). -/
structure SecretsApplyResult where
  mode : SecretsApplyMode
  changed : Bool
deriving DecidableEq

/-- runSecretsApply from src/secrets/apply.ts after plan projection: the
dry-run early return (no write at all), the no-change early return, and
otherwise the commit step. -/
def runSecretsApply (fs : FileSystemState) (writeFlag : Bool) (changedFiles : List String)
    (configPath configContent : String) (writes : List ApplyWrite) (failAt : Option Nat) :
    FileSystemState × Except SecretsApplyFailure SecretsApplyResult :=
  if !writeFlag then
    (fs, Except.ok ⟨SecretsApplyMode.dryRun, !changedFiles.isEmpty⟩)
  else if changedFiles.isEmpty then
    (fs, Except.ok ⟨SecretsApplyMode.write, false⟩)
  else
    match commitSecretsApply fs configPath configContent writes failAt with
    | (fsAfter, Except.ok ()) =>
      (fsAfter, Except.ok ⟨SecretsApplyMode.write, !changedFiles.isEmpty⟩)
    | (fsAfter, Except.error e) => (fsAfter, Except.error e)

/-- Secret reference source (env, file, exec). -/
inductive SecretRefSource where
  | env : SecretRefSource
  | file : SecretRefSource
  | exec : SecretRefSource
deriving DecidableEq

/-- Canonical secret reference triple. -/
structure SecretRef where
  source : SecretRefSource
  provider : String
  id : String
deriving DecidableEq

/-- Wire name of a ref source. -/
def refSourceName : SecretRefSource → String
  | SecretRefSource.env => "env"
  | SecretRefSource.file => "file"
  | SecretRefSource.exec => "exec"

/-- secretRefKey from src/secrets/ref-contract.ts: source, provider and id
joined by colons. -/
def secretRefKey (ref : SecretRef) : String :=
  refSourceName ref.source ++ ":" ++ ref.provider ++ ":" ++ ref.id

/-- Global provider defaults per source. -/
structure SecretDefaults where
  env : Option String := none
  file : Option String := none
  exec : Option String := none
deriving DecidableEq

/-- Default provider alias for a source. -/
def defaultProviderFor (defaults : SecretDefaults) : SecretRefSource → Option String
  | SecretRefSource.env => defaults.env
  | SecretRefSource.file => defaults.file
  | SecretRefSource.exec => defaults.exec

/-- Modelled from the spec: provider alias shape, one lowercase letter then
at most 63 of lowercase letters, digits, underscore or dash (the validator
lives in src/config/types.secrets.ts, which is not under src). -/
def isValidSecretProviderAlias (s : String) : Bool :=
  match s.toList with
  | [] => false
  | c :: rest =>
    c.isLower && rest.length ≤ 63 &&
      rest.all (fun ch => ch.isLower || ch.isDigit || ch = '_' || ch = '-')

/-- RFC 6901 escape check for the file-source id: every tilde is followed
by 0 or 1. -/
def validJsonPointerChars : List Char → Bool
  | [] => true
  | '~' :: c :: rest => (c = '0' || c = '1') && validJsonPointerChars rest
  | '~' :: [] => false
  | _ :: rest => validJsonPointerChars rest

/-- Modelled from the spec: source-specific id shape of a secret reference
(env variable name, absolute JSON pointer, exec id; the validator lives in
src/config/types.secrets.ts, which is not under src). -/
def isValidSecretRefId (source : SecretRefSource) (id : String) : Bool :=
  match source with
  | SecretRefSource.env =>
    match id.toList with
    | [] => false
    | c :: rest =>
      c.isUpper && rest.length ≤ 127 &&
        rest.all (fun ch => ch.isUpper || ch.isDigit || ch = '_')
  | SecretRefSource.file =>
    match id.toList with
    | [] => false
    | c :: rest => c = '/' && validJsonPointerChars rest
  | SecretRefSource.exec =>
    match id.toList with
    | [] => false
    | c :: rest =>
      (c.isAlpha || c.isDigit) && rest.length ≤ 255 &&
        rest.all (fun ch =>
          ch.isAlpha || ch.isDigit || ch = '.' || ch = '_' || ch = ':' || ch = '/' || ch = '-')

/-- Ref source of a value holding one of the three source names. -/
def parseRefSource : Option Value → Option SecretRefSource
  | some (Value.vStr "env") => some SecretRefSource.env
  | some (Value.vStr "file") => some SecretRefSource.file
  | some (Value.vStr "exec") => some SecretRefSource.exec
  | _ => none

/-- Modelled from the spec: coerceSecretRef (src/config/types.secrets.ts is
not under src) returns the reference when the value has the strict ref
object shape, filling a missing provider from the per-source default. -/
def coerceSecretRef (value : Option Value) (defaults : SecretDefaults) : Option SecretRef :=
  match value with
  | some (Value.vObj fields) =>
    if fields.all (fun kv => kv.1 = "source" || kv.1 = "provider" || kv.1 = "id") then
      match parseRefSource (lookupField fields "source") with
      | some source =>
        let provider :=
          match lookupField fields "provider" with
          | some (Value.vStr p) => some p
          | some _ => none
          | none => defaultProviderFor defaults source
        match provider, lookupField fields "id" with
        | some p, some (Value.vStr i) =>
          if isValidSecretProviderAlias p && isValidSecretRefId source i then
            some ⟨source, p, i⟩
          else none
        | _, _ => none
      | none => none
    else none
  | _ => none

/-- Explicit and effective refs of a secret input. -/
structure SecretInputRefs where
  explicitRef : Option SecretRef
  ref : Option SecretRef
deriving DecidableEq

/-- Modelled from the spec: resolveSecretInputRef (src/config/types.secrets.ts
is not under src): a valid sibling refValue wins and is explicit, else a
ref-shaped plaintext value is the effective ref, else none. -/
def resolveSecretInputRef (value refValue : Option Value) (defaults : SecretDefaults) :
    SecretInputRefs :=
  match coerceSecretRef refValue defaults with
  | some r => ⟨some r, some r⟩
  | none =>
    match coerceSecretRef value defaults with
    | some r => ⟨none, some r⟩
    | none => ⟨none, none⟩

/-- Modelled from the spec: hasConfiguredSecretInput (src/config/types.secrets.ts
is not under src) is true iff the value is a non-empty string or a valid
ref. -/
def hasConfiguredSecretInput (value : Option Value) (defaults : SecretDefaults) : Bool :=
  isNonEmptyStringV value || (coerceSecretRef value defaults).isSome

/-- Expected resolved shape of a target. -/
inductive SecretExpectedKind where
  | expString : SecretExpectedKind
  | expStringOrObject : SecretExpectedKind
deriving DecidableEq

/-- isExpectedResolvedSecretValue from the secret-value module appended to
src/secrets/configure-plan.ts: for expected string, a non-empty string
(isNonEmptyString from src/secrets/shared.ts); for string-or-object, also a
record. -/
def isExpectedResolvedSecretValue (v : Value) : SecretExpectedKind → Bool
  | SecretExpectedKind.expString => isNonEmptyStringV (some v)
  | SecretExpectedKind.expStringOrObject => isNonEmptyStringV (some v) || isRecordV v

/-- Resolver warning codes (src/secrets/runtime-shared.ts). -/
inductive SecretResolverWarningCode where
  | SECRETS_REF_OVERRIDES_PLAINTEXT : SecretResolverWarningCode
  | SECRETS_REF_IGNORED_INACTIVE_SURFACE : SecretResolverWarningCode
deriving DecidableEq

/-- Wire name of a resolver warning code. -/
def warningCodeName : SecretResolverWarningCode → String
  | SecretResolverWarningCode.SECRETS_REF_OVERRIDES_PLAINTEXT =>
    "SECRETS_REF_OVERRIDES_PLAINTEXT"
  | SecretResolverWarningCode.SECRETS_REF_IGNORED_INACTIVE_SURFACE =>
    "SECRETS_REF_IGNORED_INACTIVE_SURFACE"

/-- Resolver warning (src/secrets/runtime-shared.ts). -/
structure SecretResolverWarning where
  code : SecretResolverWarningCode
  path : String
  message : String
deriving DecidableEq

/-- A collected assignment (src/secrets/runtime-shared.ts); the JS apply
closure is represented by the target path it writes. -/
structure SecretAssignmentRec where
  ref : SecretRef
  path : String
  expected : SecretExpectedKind
deriving DecidableEq

/-- Resolver context (src/secrets/runtime-shared.ts): warnings with their
dedup keys, and collected assignments. -/
structure ResolverCtx where
  warnings : List SecretResolverWarning := []
  warningKeys : List String := []
  assignments : List SecretAssignmentRec := []
deriving DecidableEq

/-- The context createResolverContext starts from. -/
def emptyResolverCtx : ResolverCtx :=
  {}

/-- Dedup key of a resolver warning (the code, path, message triple joined
by colons, as in pushWarning). -/
def warningKey (warning : SecretResolverWarning) : String :=
  warningCodeName warning.code ++ ":" ++ warning.path ++ ":" ++ warning.message

/-- pushWarning from src/secrets/runtime-shared.ts: deduplicated by the
code, path and message triple. -/
def pushWarning (ctx : ResolverCtx) (warning : SecretResolverWarning) : ResolverCtx :=
  if ctx.warningKeys.contains (warningKey warning) then ctx
  else
    { ctx with
      warnings := ctx.warnings ++ [warning]
      warningKeys := ctx.warningKeys ++ [warningKey warning] }

/-- Message of an inactive-surface diagnostic
(pushInactiveSurfaceWarning in src/secrets/runtime-shared.ts). -/
def inactiveSurfaceMessage (path : String) (details : Option String) : String :=
  match details with
  | some d =>
    if jsTrim d ≠ "" then path ++ ": " ++ d
    else
      path ++
        ": secret ref is configured on an inactive surface; skipping resolution until it becomes active."
  | none =>
    path ++
      ": secret ref is configured on an inactive surface; skipping resolution until it becomes active."

/-- pushInactiveSurfaceWarning from src/secrets/runtime-shared.ts. -/
def pushInactiveSurfaceWarning (ctx : ResolverCtx) (path : String)
    (details : Option String) : ResolverCtx :=
  pushWarning ctx
    ⟨SecretResolverWarningCode.SECRETS_REF_IGNORED_INACTIVE_SURFACE, path,
      inactiveSurfaceMessage path details⟩

/-- pushAssignment from src/secrets/runtime-shared.ts. -/
def pushAssignment (ctx : ResolverCtx) (assignment : SecretAssignmentRec) : ResolverCtx :=
  { ctx with assignments := ctx.assignments ++ [assignment] }

/-- collectSecretInputAssignment from src/secrets/runtime-shared.ts: skip
non-refs, record an inactive-surface diagnostic when active is literally
false, otherwise push the assignment. -/
def collectSecretInputAssignment (value : Option Value) (path : String)
    (expected : SecretExpectedKind) (defaults : SecretDefaults) (ctx : ResolverCtx)
    (active : Option Bool := none) (inactiveReason : Option String := none) : ResolverCtx :=
  match coerceSecretRef value defaults with
  | none => ctx
  | some ref =>
    if active = some false then pushInactiveSurfaceWarning ctx path inactiveReason
    else pushAssignment ctx ⟨ref, path, expected⟩

/-- Whether a possibly-absent value is literally the boolean false. -/
def isFalseValue : Option Value → Bool
  | some (Value.vBool false) => true
  | _ => false

/-- Whether a possibly-absent value is the given string. -/
def isStrValue : Option Value → String → Bool
  | some (Value.vStr t), s => t = s
  | _, _ => false

/-- Trimmed string content of a value, empty for non-strings (the JS
typeof-string guard followed by trim). -/
def getStrTrim : Option Value → String
  | some (Value.vStr s) => jsTrim s
  | _ => ""

/-- isEnabledFlag from src/secrets/runtime-shared.ts on object fields:
enabled is on unless literally false. -/
def isEnabledFields (fields : List (String × Value)) : Bool :=
  !isFalseValue (lookupField fields "enabled")

/-- isEnabledFlag from src/secrets/runtime-shared.ts: non-records are
enabled. -/
def isEnabledFlag : Value → Bool
  | Value.vObj fields => isEnabledFields fields
  | _ => true

/-- collectGatewayAssignments from
src/secrets/runtime-config-collectors-core.ts: gateway auth password is
active only in password mode; the remote token and password are active when
remote is enabled and remote mode is on, a remote url is configured, or no
local-mode secret is configured. -/
def collectGatewayAssignments (config : Value) (defaults : SecretDefaults)
    (ctx0 : ResolverCtx) : ResolverCtx :=
  match objLookup config "gateway" with
  | some (Value.vObj gw) =>
    let ctx1 :=
      match lookupField gw "auth" with
      | some (Value.vObj auth) =>
        collectSecretInputAssignment (lookupField auth "password") "gateway.auth.password"
          SecretExpectedKind.expString defaults ctx0
          (some (isStrValue (lookupField auth "mode") "password"))
          (some "gateway.auth.mode is not \"password\".")
      | _ => ctx0
    match lookupField gw "remote" with
    | some (Value.vObj remote) =>
      let localTokenConfigured :=
        hasConfiguredSecretInput (optLookup (lookupField gw "auth") "token") defaults
      let localPasswordConfigured :=
        hasConfiguredSecretInput (optLookup (lookupField gw "auth") "password") defaults
      let remoteMode := isStrValue (lookupField gw "mode") "remote"
      let remoteUrlConfigured := getStrTrim (lookupField remote "url") ≠ ""
      let remoteEnabled := !isFalseValue (lookupField remote "enabled")
      let remoteTokenActive :=
        remoteEnabled && (remoteMode || remoteUrlConfigured || !localTokenConfigured)
      let remotePasswordActive :=
        remoteEnabled && (remoteMode || remoteUrlConfigured || !localPasswordConfigured)
      let ctx2 :=
        collectSecretInputAssignment (lookupField remote "token") "gateway.remote.token"
          SecretExpectedKind.expString defaults ctx1 (some remoteTokenActive)
          (some
            (if !remoteEnabled then "gateway.remote is disabled."
             else
               "gateway.remote.token is inactive because local gateway auth token is configured."))
      collectSecretInputAssignment (lookupField remote "password") "gateway.remote.password"
        SecretExpectedKind.expString defaults ctx2 (some remotePasswordActive)
        (some
          (if !remoteEnabled then "gateway.remote is disabled."
           else
             "gateway.remote.password is inactive because local gateway auth password is configured."))
    | _ => ctx1
  | _ => ctx0

/-- One channel account surface entry
(src/secrets/runtime-config-collectors-channels.ts). -/
structure ChannelAccountEntry where
  accountId : String
  account : List (String × Value)
  enabled : Bool

/-- Channel account surface
(src/secrets/runtime-config-collectors-channels.ts). -/
structure ChannelAccountSurface where
  hasExplicitAccounts : Bool
  channelEnabled : Bool
  accounts : List ChannelAccountEntry

/-- resolveChannelAccountSurface from
src/secrets/runtime-config-collectors-channels.ts: without a non-empty
accounts mapping the channel itself is the single implicit account. -/
def resolveChannelAccountSurface (channel : List (String × Value)) : ChannelAccountSurface :=
  let channelEnabled := isEnabledFields channel
  match lookupField channel "accounts" with
  | some (Value.vObj accountFields) =>
    if accountFields.isEmpty then
      ⟨false, channelEnabled, [⟨"default", channel, channelEnabled⟩]⟩
    else
      ⟨true, channelEnabled,
        accountFields.filterMap (fun kv =>
          match kv.2 with
          | Value.vObj accountRecord =>
            some ⟨kv.1, accountRecord, channelEnabled && isEnabledFields accountRecord⟩
          | _ => none)⟩
  | _ => ⟨false, channelEnabled, [⟨"default", channel, channelEnabled⟩]⟩

/-- isBaseFieldActiveForChannelSurface from
src/secrets/runtime-config-collectors-channels.ts. -/
def isBaseFieldActiveForChannelSurface (surface : ChannelAccountSurface)
    (rootKey : String) : Bool :=
  if !surface.channelEnabled then false
  else if !surface.hasExplicitAccounts then true
  else
    surface.accounts.any (fun entry => entry.enabled && !hasKey entry.account rootKey)

/-- collectSimpleChannelFieldAssignments from
src/secrets/runtime-config-collectors-channels.ts: the top-level field is
gated by isBaseFieldActiveForChannelSurface, and each explicit account
holding the field is gated only by its enabled flag. -/
def collectSimpleChannelFieldAssignments (channelKey field : String)
    (channel : List (String × Value)) (surface : ChannelAccountSurface)
    (defaults : SecretDefaults) (ctx : ResolverCtx)
    (topInactiveReason accountInactiveReason : String) : ResolverCtx :=
  let ctx1 :=
    collectSecretInputAssignment (lookupField channel field)
      ("channels." ++ channelKey ++ "." ++ field) SecretExpectedKind.expString defaults ctx
      (some (isBaseFieldActiveForChannelSurface surface field))
      (some topInactiveReason)
  if !surface.hasExplicitAccounts then ctx1
  else
    surface.accounts.foldl
      (fun ctx entry =>
        if !hasKey entry.account field then ctx
        else
          collectSecretInputAssignment (lookupField entry.account field)
            ("channels." ++ channelKey ++ ".accounts." ++ entry.accountId ++ "." ++ field)
            SecretExpectedKind.expString defaults ctx
            (some entry.enabled)
            (some accountInactiveReason))
      ctx1

/-- The webhookUrl gate of the top-level Telegram webhookSecret surface. -/
def telegramTopWebhookSecretActive (surface : ChannelAccountSurface)
    (baseWebhookUrl : String) : Bool :=
  if !surface.channelEnabled then false
  else if !surface.hasExplicitAccounts then baseWebhookUrl ≠ ""
  else
    surface.accounts.any (fun entry =>
      entry.enabled && !hasKey entry.account "webhookSecret" &&
        (if hasKey entry.account "webhookUrl" then
          getStrTrim (lookupField entry.account "webhookUrl") ≠ ""
         else baseWebhookUrl ≠ ""))

/-- The per-account webhookSecret pass of collectTelegramAssignments. -/
def collectTelegramAccountWebhookSecrets (accounts : List ChannelAccountEntry)
    (baseWebhookUrl : String) (defaults : SecretDefaults) (ctx : ResolverCtx) : ResolverCtx :=
  accounts.foldl
    (fun ctx entry =>
      if !hasKey entry.account "webhookSecret" then ctx
      else
        let accountWebhookUrl :=
          if hasKey entry.account "webhookUrl" then
            getStrTrim (lookupField entry.account "webhookUrl")
          else baseWebhookUrl
        collectSecretInputAssignment (lookupField entry.account "webhookSecret")
          ("channels.telegram.accounts." ++ entry.accountId ++ ".webhookSecret")
          SecretExpectedKind.expString defaults ctx
          (some (entry.enabled && accountWebhookUrl ≠ ""))
          (some "Telegram account is disabled or webhook mode is not active for this account."))
    ctx

/-- collectTelegramAssignments from
src/secrets/runtime-config-collectors-channels.ts (the collector wired in
by runtime-config-collectors.ts): botToken goes through the simple channel
field pass, and webhookSecret needs a non-empty inherited webhookUrl. -/
def collectTelegramAssignments (config : Value) (defaults : SecretDefaults)
    (ctx0 : ResolverCtx) : ResolverCtx :=
  match objLookup config "channels" with
  | some (Value.vObj channels) =>
    match lookupField channels "telegram" with
    | some (Value.vObj telegram) =>
      let surface := resolveChannelAccountSurface telegram
      let ctx1 :=
        collectSimpleChannelFieldAssignments "telegram" "botToken" telegram surface
          defaults ctx0
          "no enabled account inherits this top-level Telegram botToken."
          "Telegram account is disabled."
      let baseWebhookUrl := getStrTrim (lookupField telegram "webhookUrl")
      let ctx2 :=
        collectSecretInputAssignment (lookupField telegram "webhookSecret")
          "channels.telegram.webhookSecret" SecretExpectedKind.expString defaults ctx1
          (some (telegramTopWebhookSecretActive surface baseWebhookUrl))
          (some
            "no enabled Telegram webhook surface inherits this top-level webhookSecret (webhook mode is not active).")
      if surface.hasExplicitAccounts then
        collectTelegramAccountWebhookSecrets surface.accounts baseWebhookUrl defaults ctx2
      else ctx2
    | _ => ctx0
  | _ => ctx0

/-- collectGoogleChatAccountAssignment from
src/secrets/runtime-config-collectors-channels.ts: the sibling
serviceAccountRef wins; an explicit ref over non-ref plaintext records the
override warning; the assignment writes the account serviceAccount field. -/
def collectGoogleChatAccountAssignment (target : List (String × Value)) (path : String)
    (defaults : SecretDefaults) (ctx : ResolverCtx) (active : Option Bool := none)
    (inactiveReason : Option String := none) : ResolverCtx :=
  let refs :=
    resolveSecretInputRef (lookupField target "serviceAccount")
      (lookupField target "serviceAccountRef") defaults
  match refs.ref with
  | none => ctx
  | some ref =>
    if active = some false then
      pushInactiveSurfaceWarning ctx (path ++ ".serviceAccount") inactiveReason
    else
      let ctx1 :=
        if refs.explicitRef.isSome && (lookupField target "serviceAccount").isSome &&
            (coerceSecretRef (lookupField target "serviceAccount") defaults).isNone then
          pushWarning ctx
            ⟨SecretResolverWarningCode.SECRETS_REF_OVERRIDES_PLAINTEXT, path,
              path ++ ": serviceAccountRef is set; runtime will ignore plaintext serviceAccount."⟩
        else ctx
      pushAssignment ctx1
        ⟨ref, path ++ ".serviceAccount", SecretExpectedKind.expStringOrObject⟩

/-- applyResolvedAssignments from src/secrets/runtime-shared.ts,
specialized to assignments collected by collectGoogleChatAccountAssignment
on a single account, whose apply closures all write the serviceAccount
field of that account: look the refKey up in the resolved batch, check the
expected shape, and write. -/
def applyResolvedServiceAccountAssignments (account : List (String × Value))
    (assignments : List SecretAssignmentRec) (resolved : List (String × Value)) :
    Except String (List (String × Value)) :=
  match assignments with
  | [] => Except.ok account
  | assignment :: rest =>
    match lookupField resolved (secretRefKey assignment.ref) with
    | none => Except.error "Secret reference resolved to no value."
    | some v =>
      if isExpectedResolvedSecretValue v assignment.expected then
        applyResolvedServiceAccountAssignments (setFieldFn account "serviceAccount" v) rest
          resolved
      else Except.error "Secret reference resolved to an unexpected value shape."

/-- Request params of secrets.resolve (already shaped; ill-typed wire
payloads are outside the model). -/
structure SecretsResolveParamsShape where
  commandName : String
  targetIds : List String

/-- One command secret assignment returned by the snapshot walk
(src/secrets/command-config.ts shape). -/
structure CommandSecretAssignment where
  path : String
  pathSegments : List String
  value : Value

/-- Successful payload data of secrets.resolve. -/
structure SecretsResolveOkData where
  assignments : List CommandSecretAssignment
  diagnostics : List String

/-- Gateway error codes used by the secrets handlers. -/
inductive GatewayErrorCode where
  | INVALID_REQUEST : GatewayErrorCode
  | UNAVAILABLE : GatewayErrorCode
deriving DecidableEq

/-- Response of the secrets.resolve handler. -/
inductive SecretsResolveResponse where
  | success (assignments : List CommandSecretAssignment) (diagnostics : List String) :
      SecretsResolveResponse
  | failure (code : GatewayErrorCode) (message : String) : SecretsResolveResponse

/-- SecretsResolveParamsSchema from the gateway protocol module appended to
src/secrets/plan.ts, on the already-shaped params record: commandName is a
NonEmptyString and targetIds an array of NonEmptyString. The NonEmptyString
primitive itself (gateway protocol primitives.ts, not under src) is
modelled from the spec as a string of length at least 1; no trimming, the
handler re-trims afterwards. -/
def validateSecretsResolveParams (params : SecretsResolveParamsShape) : Bool :=
  params.commandName ≠ "" && params.targetIds.all (fun t => t ≠ "")

/-- SecretsResolveResultSchema and SecretsResolveAssignmentSchema from the
gateway protocol module appended to src/secrets/plan.ts, on the handler's
ok-payload: each assignment has a NonEmptyString path and NonEmptyString
pathSegments with an unconstrained value, and diagnostics are
NonEmptyStrings (NonEmptyString as above). -/
def validateSecretsResolveResultPayload (data : SecretsResolveOkData) : Bool :=
  data.assignments.all (fun a => a.path ≠ "" && a.pathSegments.all (fun s => s ≠ "")) &&
    data.diagnostics.all (fun d => d ≠ "")

/-- The secrets.resolve handler of createSecretsHandlers (gateway
server-methods module appended to src/secrets/plan.ts), parametrized like
the source by the underlying resolveSecrets callback; the boolean reports
whether that callback was invoked. Requests are schema-validated, the
command name is trimmed and must stay non-empty, target ids are trimmed
with blank entries dropped, every remaining id must be known, and resolver
errors surface as UNAVAILABLE. -/
def secretsResolveHandler (knownIds : List String)
    (resolveSecrets : String → List String → Except String SecretsResolveOkData)
    (params : SecretsResolveParamsShape) : SecretsResolveResponse × Bool :=
  if !validateSecretsResolveParams params then
    (SecretsResolveResponse.failure GatewayErrorCode.INVALID_REQUEST
      ("invalid secrets.resolve params: " ++
        (if params.commandName = "" then "commandName" else "targetIds")), false)
  else
    let commandName := jsTrim params.commandName
    if commandName = "" then
      (SecretsResolveResponse.failure GatewayErrorCode.INVALID_REQUEST
        "invalid secrets.resolve params: commandName", false)
    else
      let targetIds := (params.targetIds.map jsTrim).filter (fun t => t ≠ "")
      match targetIds.find? (fun t => !knownIds.contains t) with
      | some unknownId =>
        (SecretsResolveResponse.failure GatewayErrorCode.INVALID_REQUEST
          ("invalid secrets.resolve params: unknown target id \"" ++ unknownId ++ "\""),
          false)
      | none =>
        match resolveSecrets commandName targetIds with
        | Except.error e =>
          (SecretsResolveResponse.failure GatewayErrorCode.UNAVAILABLE e, true)
        | Except.ok result =>
          if validateSecretsResolveResultPayload result then
            (SecretsResolveResponse.success result.assignments result.diagnostics, true)
          else
            (SecretsResolveResponse.failure GatewayErrorCode.UNAVAILABLE
              "secrets.resolve returned invalid payload.", true)

/-- resolveCommandSecretsFromActiveRuntimeSnapshot from
src/secrets/runtime.ts: without an active snapshot it throws, an empty id
set short-circuits, otherwise the snapshot walk (passed as a function, like
the call into collectCommandSecretAssignmentsFromSnapshot) runs. -/
def resolveCommandSecretsFromActiveRuntimeSnapshot {Snap : Type}
    (activeSnapshot : Option Snap)
    (collect : Snap → String → List String → Except String SecretsResolveOkData)
    (commandName : String) (targetIds : List String) : Except String SecretsResolveOkData :=
  match activeSnapshot with
  | none => Except.error "Secrets runtime snapshot is not active."
  | some snapshot =>
    if targetIds.isEmpty then Except.ok ⟨[], []⟩
    else collect snapshot commandName targetIds

/-- Tlon outbound peer (extensions/tlon/src/outbound-session.ts). -/
structure TlonPeer where
  kind : String
  id : String
deriving DecidableEq

/-- Tlon outbound session routing fields; the JS keys from and to are named
fromField and toField. -/
structure TlonOutboundSession where
  peer : TlonPeer
  chatType : String
  fromField : String
  toField : String
deriving DecidableEq

/-- normalizeTlonShip from extensions/tlon/src/outbound-session.ts. -/
def normalizeTlonShip (raw : String) : String :=
  let trimmed := jsTrim raw
  if trimmed = "" then trimmed
  else if jsStartsWith trimmed "~" then trimmed
  else "~" ++ trimmed

/-- Case-insensitive strip of a leading tag (the anchored
case-insensitive replace calls in resolveTlonOutboundSession). -/
def stripTagCaseless (s : String) (tag : String) : String :=
  if jsStartsWith (jsToLower s) tag then jsDrop s tag.length else s

/-- Group session result shape. -/
def mkTlonGroupSession (peerId : String) : TlonOutboundSession :=
  ⟨⟨"group", peerId⟩, "group", "tlon:group:" ++ peerId, "tlon:" ++ peerId⟩

/-- Direct session result shape. -/
def mkTlonDirectSession (peerId : String) : TlonOutboundSession :=
  ⟨⟨"direct", peerId⟩, "direct", "tlon:" ++ peerId, "tlon:" ++ peerId⟩

/-- resolveTlonOutboundSession from extensions/tlon/src/outbound-session.ts. -/
def resolveTlonOutboundSession (target : String) : Option TlonOutboundSession :=
  let step1 := jsTrim target
  if step1 = "" then none
  else
    let trimmed := jsTrim (stripTagCaseless step1 "tlon:")
    if trimmed = "" then none
    else
      let lower := jsToLower trimmed
      if jsStartsWith lower "group:" || jsStartsWith lower "room:" then
        let stripped :=
          jsTrim (if jsStartsWith lower "group:" then jsDrop trimmed 6
           else jsDrop trimmed 5)
        let peerId :=
          if jsStartsWith stripped "chat/" then stripped
          else
            match ((splitOnChar stripped (Char.ofNat 47))).filter (fun part => part ≠ "") with
            | [a, b] => "chat/" ++ normalizeTlonShip a ++ "/" ++ b
            | _ => stripped
        some (mkTlonGroupSession peerId)
      else if jsStartsWith lower "dm:" then
        some (mkTlonDirectSession (normalizeTlonShip (jsDrop trimmed 3)))
      else if jsStartsWith lower "chat/" then
        some (mkTlonGroupSession trimmed)
      else if jsContainsChar trimmed (Char.ofNat 47) then
        match ((splitOnChar trimmed (Char.ofNat 47))).filter (fun part => part ≠ "") with
        | [a, b] => some (mkTlonGroupSession ("chat/" ++ normalizeTlonShip a ++ "/" ++ b))
        | _ => some (mkTlonDirectSession trimmed)
      else some (mkTlonDirectSession (normalizeTlonShip trimmed))

/-- The remote half of collectGatewayAssignments
(src/secrets/runtime-config-collectors-core.ts), with the remote-enabled
flag and the two gating disjunctions abstracted; collectGatewayAssignments
instantiates it with the flags computed from the configuration. -/
def gatewayRemoteCollect (defaults : SecretDefaults) (tokVal pwVal : Option Value)
    (re tokGate pwGate : Bool) (ctx1 : ResolverCtx) : ResolverCtx :=
  collectSecretInputAssignment pwVal "gateway.remote.password"
    SecretExpectedKind.expString defaults
    (collectSecretInputAssignment tokVal "gateway.remote.token"
      SecretExpectedKind.expString defaults ctx1 (some (re && tokGate))
      (some (if !re then "gateway.remote is disabled."
        else "gateway.remote.token is inactive because local gateway auth token is configured.")))
    (some (re && pwGate))
    (some (if !re then "gateway.remote is disabled."
      else "gateway.remote.password is inactive because local gateway auth password is configured."))

/-- Concrete gateway section for the C2 witness: remote token/password refs,
no local auth section. -/
def c2wRemoteFields : List (String × Value) :=
  [("token", Value.vObj
      [("source", Value.vStr "env"), ("provider", Value.vStr "default"),
        ("id", Value.vStr "GW_TOKEN")]),
   ("password", Value.vObj
      [("source", Value.vStr "env"), ("provider", Value.vStr "default"),
        ("id", Value.vStr "GW_PASSWORD")])]

/-- Gateway object of the C2 witness configuration. -/
def c2wGateway : List (String × Value) :=
  [("remote", Value.vObj c2wRemoteFields)]

/-- C2 witness configuration. -/
def c2wConfig : Value :=
  Value.vObj [("gateway", Value.vObj c2wGateway)]

/-- Gateway object of the C2 counterexample configuration: remote mode is on
and a local plaintext auth token is configured next to a remote token ref. -/
def c2cGateway : List (String × Value) :=
  [("mode", Value.vStr "remote"),
   ("auth", Value.vObj [("token", Value.vStr "local-secret-token")]),
   ("remote", Value.vObj
      [("token", Value.vObj
          [("source", Value.vStr "env"), ("provider", Value.vStr "default"),
            ("id", Value.vStr "GW_TOKEN")])])]

/-- C2 counterexample configuration. -/
def c2cConfig : Value :=
  Value.vObj [("gateway", Value.vObj c2cGateway)]

/-- Secret ref value used by the C3 witness. -/
def c3wBotToken : Value :=
  Value.vObj
    [("source", Value.vStr "env"), ("provider", Value.vStr "default"),
      ("id", Value.vStr "TG_TOKEN")]

/-- Telegram channel object with a top-level botToken next to a tokenFile
(C3, the no-accounts surface). -/
def c3TopTelegram (bt : Value) (tf : String) : List (String × Value) :=
  [("botToken", bt), ("tokenFile", Value.vStr tf)]

/-- Configuration holding c3TopTelegram. -/
def c3TopConfig (bt : Value) (tf : String) : Value :=
  Value.vObj [("channels", Value.vObj [("telegram", Value.vObj (c3TopTelegram bt tf))])]

/-- Telegram account object with a botToken next to a tokenFile (C3, the
explicit-accounts surface). -/
def c3AccAccount (bt : Value) (tf : String) : List (String × Value) :=
  [("botToken", bt), ("tokenFile", Value.vStr tf)]

/-- Telegram channel object with one explicit account. -/
def c3AccTelegram (bt : Value) (tf : String) : List (String × Value) :=
  [("accounts", Value.vObj [("work", Value.vObj (c3AccAccount bt tf))])]

/-- Configuration holding c3AccTelegram. -/
def c3AccConfig (bt : Value) (tf : String) : Value :=
  Value.vObj [("channels", Value.vObj [("telegram", Value.vObj (c3AccTelegram bt tf))])]

/-- Google Chat account object for the C4 witness: plaintext serviceAccount
next to a sibling serviceAccountRef. -/
def c4wTarget : List (String × Value) :=
  [("serviceAccount", Value.vStr "plain-json"),
   ("serviceAccountRef", Value.vObj
      [("source", Value.vStr "file"), ("provider", Value.vStr "default"),
        ("id", Value.vStr "/google/sa")])]

/-- Resolved secret value of the C4 witness. -/
def c4wResolvedValue : Value :=
  Value.vObj [("type", Value.vStr "service_account")]

/-- Resolved batch of the C4 witness, keyed by the ref key. -/
def c4wResolved : List (String × Value) :=
  [("file:default:/google/sa", c4wResolvedValue)]

theorem filter_length_pos_iff_any {α : Type} (p : α → Bool) (l : List α) :
    (0 < (l.filter p).length) ↔ l.any p = true := by
  induction l with
  | nil => simp
  | cons x xs ih =>
    by_cases hx : p x <;> simp [hx, ih]

/-- C6: the audit exit code is 2 exactly when a REF_UNRESOLVED finding is
present, else 1 under the check flag with any finding, else 0. -/
theorem audit_exit_code_policy (findings : List SecretsAuditFinding) (check : Bool) :
    resolveSecretsAuditExitCode (mkSecretsAuditReport findings) check =
      (if findings.any (fun f => f.code = SecretsAuditCode.REF_UNRESOLVED) then 2
       else if check && !findings.isEmpty then 1
       else 0) := by
  have hany :
      (0 < (findings.filter (fun f => f.code = SecretsAuditCode.REF_UNRESOLVED)).length) ↔
        findings.any (fun f => f.code = SecretsAuditCode.REF_UNRESOLVED) = true :=
    filter_length_pos_iff_any _ _
  by_cases h : findings.any (fun f => f.code = SecretsAuditCode.REF_UNRESOLVED) = true
  · simp [resolveSecretsAuditExitCode, mkSecretsAuditReport, summarizeFindings, h, hany.mpr h]
  · have hlen : ¬ 0 < (findings.filter (fun f => f.code = SecretsAuditCode.REF_UNRESOLVED)).length := by
      intro hcontra
      exact h (hany.mp hcontra)
    by_cases hempty : findings.isEmpty
    · have : findings = [] := by
        cases findings with
        | nil => rfl
        | cons a l => simp [List.isEmpty] at hempty
      subst this
      simp [resolveSecretsAuditExitCode, mkSecretsAuditReport, summarizeFindings]
    · have hpos : 0 < findings.length := by
        cases findings with
        | nil => simp at hempty
        | cons a l => simp
      simp only [Bool.not_eq_true] at h
      simp [resolveSecretsAuditExitCode, mkSecretsAuditReport, summarizeFindings, h, hlen,
        hempty, hpos]

/-- C9: the Tlon outbound resolver maps group:~host-ship/general to the
canonical group peer chat/~host-ship/general with the group from field and
plain to field, and returns null for every input that is blank after
trimming, including after stripping a leading tlon: tag. -/
theorem tlon_outbound_session_spec :
    resolveTlonOutboundSession "group:~host-ship/general" =
        some ⟨⟨"group", "chat/~host-ship/general"⟩, "group",
          "tlon:group:chat/~host-ship/general", "tlon:chat/~host-ship/general"⟩ ∧
      (∀ s : String, jsTrim s = "" → resolveTlonOutboundSession s = none) ∧
      (∀ s : String, jsTrim (stripTagCaseless (jsTrim s) "tlon:") = "" →
        resolveTlonOutboundSession s = none) := by
  refine ⟨rfl, ?_, ?_⟩
  · intro s h
    simp [resolveTlonOutboundSession, h]
  · intro s h
    by_cases h1 : jsTrim s = "" <;> simp [resolveTlonOutboundSession, h1, h]

/-- Witness for C9 at a blank-after-stripping input. -/
theorem tlon_outbound_session_spec_witness :
    resolveTlonOutboundSession "  tlon:   " = none :=
  tlon_outbound_session_spec.2.2 "  tlon:   " (by rfl)

theorem setCreateGo_error_ne_empty (segments : List String) :
    ∀ (cursor value : Value) (e : PathErr), segments ≠ [] →
      setCreateGo cursor segments value = Except.error e → e ≠ PathErr.emptyPath := by
  induction segments with
  | nil => intro cursor value e h; exact absurd rfl h
  | cons s rest ih =>
    intro cursor value e _ heq
    cases rest with
    | nil =>
      cases cursor <;> simp only [setCreateGo] at heq <;> (repeat' split at heq) <;>
        (try simp only [Except.error.injEq] at heq) <;> (try simp at heq) <;>
        (subst heq) <;> decide
    | cons next rest2 =>
      cases cursor <;> simp only [setCreateGo] at heq <;> (repeat' split at heq) <;>
        (try simp only [Except.error.injEq] at heq) <;> (try simp at heq) <;>
        (subst heq) <;>
        first
        | decide
        | exact ih _ _ _ (by simp) (by assumption)

theorem setExistingGo_error_ne_empty (segments : List String) :
    ∀ (cursor value : Value) (e : PathErr), segments ≠ [] →
      setExistingGo cursor segments value = Except.error e → e ≠ PathErr.emptyPath := by
  induction segments with
  | nil => intro cursor value e h; exact absurd rfl h
  | cons s rest ih =>
    intro cursor value e _ heq
    cases rest with
    | nil =>
      cases cursor <;> simp only [setExistingGo] at heq <;> (repeat' split at heq) <;>
        (try simp only [Except.error.injEq] at heq) <;> (try simp at heq) <;>
        (subst heq) <;> decide
    | cons next rest2 =>
      cases cursor <;> simp only [setExistingGo] at heq <;> (repeat' split at heq) <;>
        (try simp only [Except.error.injEq] at heq) <;> (try simp at heq) <;>
        (subst heq) <;>
        first
        | decide
        | exact ih _ _ _ (by simp) (by assumption)

theorem deleteGo_error_ne_empty (segments : List String) :
    ∀ (cursor : Value) (e : PathErr), segments ≠ [] →
      deleteGo cursor segments = Except.error e → e ≠ PathErr.emptyPath := by
  induction segments with
  | nil => intro cursor e h; exact absurd rfl h
  | cons s rest ih =>
    intro cursor e _ heq
    cases rest with
    | nil =>
      cases cursor <;> simp only [deleteGo] at heq <;> (repeat' split at heq) <;>
        (try simp only [Except.error.injEq] at heq) <;> (try simp at heq) <;>
        (subst heq) <;> decide
    | cons next rest2 =>
      cases cursor <;> simp only [deleteGo] at heq <;> (repeat' split at heq) <;>
        (try simp only [Except.error.injEq] at heq) <;> (try simp at heq) <;>
        (subst heq) <;>
        first
        | decide
        | exact ih _ _ (by simp) (by assumption)

/-- C10: getPath on an empty segment list is undefined without touching the
tree, every strict mutation on an empty segment list fails with the
empty-path error before indexing into the tree, and on non-empty segment
lists the strict mutations never raise the empty-path error: every error is
one of the path-shape class (invalid path shape, invalid array index
segment) or the missing-segment class. -/
theorem path_ops_empty_and_error_classes (root value : Value) (segments : List String)
    (hne : segments ≠ []) :
    getPath root [] = none ∧
      setPathCreateStrict root [] value = Except.error PathErr.emptyPath ∧
      setPathExistingStrict root [] value = Except.error PathErr.emptyPath ∧
      deletePathStrict root [] = Except.error PathErr.emptyPath ∧
      (∀ e, setPathCreateStrict root segments value = Except.error e →
        e = PathErr.invalidArrayIndexSegment ∨ e = PathErr.invalidPathShape ∨
          e = PathErr.missingSegment) ∧
      (∀ e, setPathExistingStrict root segments value = Except.error e →
        e = PathErr.invalidArrayIndexSegment ∨ e = PathErr.invalidPathShape ∨
          e = PathErr.missingSegment) ∧
      (∀ e, deletePathStrict root segments = Except.error e →
        e = PathErr.invalidArrayIndexSegment ∨ e = PathErr.invalidPathShape ∨
          e = PathErr.missingSegment) := by
  obtain ⟨s, rest, rfl⟩ : ∃ s rest, segments = s :: rest := by
    cases segments with
    | nil => exact absurd rfl hne
    | cons s rest => exact ⟨s, rest, rfl⟩
  refine ⟨rfl, rfl, rfl, rfl, ?_, ?_, ?_⟩
  · intro e he
    have h := setCreateGo_error_ne_empty (s :: rest) root value e (by simp) he
    cases e <;> simp_all
  · intro e he
    have h := setExistingGo_error_ne_empty (s :: rest) root value e (by simp) he
    cases e <;> simp_all
  · intro e he
    have h := deleteGo_error_ne_empty (s :: rest) root e (by simp) he
    cases e <;> simp_all

/-- Witness for C10 at a concrete tree and path. -/
theorem path_ops_empty_and_error_classes_witness :
    getPath (Value.vObj [("a", Value.vStr "x")]) [] = none ∧
      deletePathStrict (Value.vObj [("a", Value.vStr "x")]) [] =
        Except.error PathErr.emptyPath := by
  have h :=
    path_ops_empty_and_error_classes (Value.vObj [("a", Value.vStr "x")]) Value.vNull ["a"]
      (by decide)
  exact ⟨h.1, h.2.2.2.1⟩

theorem digitChar_isDigit (n : Nat) (h : n < 10) : (digitChar n).isDigit = true := by
  interval_cases n <;> decide

theorem natToDecChars_ne_nil (n : Nat) : natToDecChars n ≠ [] := by
  rw [natToDecChars]
  split
  · simp
  · simp

theorem natToDecChars_all_digits (n : Nat) : ∀ c ∈ natToDecChars n, c.isDigit = true := by
  induction n using Nat.strong_induction_on with
  | _ n ih =>
    rw [natToDecChars]
    split
    · intro c hc
      simp at hc
      subst hc
      exact digitChar_isDigit n (by omega)
    · intro c hc
      rw [List.mem_append] at hc
      rcases hc with hc | hc
      · exact ih (n / 10) (Nat.div_lt_self (by omega) (by norm_num)) c hc
      · simp at hc
        subst hc
        exact digitChar_isDigit (n % 10) (Nat.mod_lt _ (by norm_num))

theorem isDigitString_natToDecString (n : Nat) : isDigitString (natToDecString n) = true := by
  have h1 := natToDecChars_ne_nil n
  have h2 := natToDecChars_all_digits n
  simp only [isDigitString, natToDecString, Bool.and_eq_true]
  constructor
  · simp only [ne_eq, decide_eq_true_eq]
    intro hcontra
    exact h1 (congrArg String.data hcontra)
  · rw [List.all_eq_true]
    intro c hc
    exact h2 c hc

theorem walkExpandEntries_shape (fields : List (String × Value)) (rest : List PathPatternToken)
    (segs caps : List String) (m : ExpandedPathMatch)
    (hm : m ∈ walkExpandEntries fields rest segs caps) :
    ∃ key v, (key, v) ∈ fields ∧
      ((rest.isEmpty = true ∧ m = ⟨segs ++ [key], caps ++ [key], some v⟩) ∨
        (rest.isEmpty = false ∧
          m ∈ walkExpand (some v) rest (segs ++ [key]) (caps ++ [key]))) := by
  induction fields with
  | nil => simp [walkExpandEntries] at hm
  | cons kv more ihf =>
    obtain ⟨key, v⟩ := kv
    simp only [walkExpandEntries] at hm
    rw [List.mem_append] at hm
    rcases hm with hm | hm
    · by_cases hre : rest.isEmpty
      · rw [if_pos hre] at hm
        simp at hm
        exact ⟨key, v, List.mem_cons_self _ _, Or.inl ⟨hre, hm⟩⟩
      · rw [if_neg hre] at hm
        exact ⟨key, v, List.mem_cons_self _ _,
          Or.inr ⟨Bool.not_eq_true _ ▸ (by simpa using hre), hm⟩⟩
    · obtain ⟨key2, v2, hmem, hcase⟩ := ihf hm
      exact ⟨key2, v2, List.mem_cons_of_mem _ hmem, hcase⟩

theorem walkExpandItems_shape (items : List Value) (field : String)
    (rest : List PathPatternToken) (segs caps : List String) (m : ExpandedPathMatch) :
    ∀ index : Nat, m ∈ walkExpandItems items index field rest segs caps →
    ∃ iStr v, isDigitString iStr = true ∧ v ∈ items ∧
      ((rest.isEmpty = true ∧ m = ⟨segs ++ [field, iStr], caps ++ [iStr], some v⟩) ∨
        (rest.isEmpty = false ∧
          m ∈ walkExpand (some v) rest (segs ++ [field, iStr]) (caps ++ [iStr]))) := by
  induction items with
  | nil => intro index hm; simp [walkExpandItems] at hm
  | cons item more ihi =>
    intro index hm
    simp only [walkExpandItems] at hm
    rw [List.mem_append] at hm
    rcases hm with hm | hm
    · by_cases hre : rest.isEmpty
      · rw [if_pos hre] at hm
        simp at hm
        exact ⟨natToDecString index, item, isDigitString_natToDecString index,
          List.mem_cons_self _ _, Or.inl ⟨hre, hm⟩⟩
      · rw [if_neg hre] at hm
        exact ⟨natToDecString index, item, isDigitString_natToDecString index,
          List.mem_cons_self _ _, Or.inr ⟨by simpa using hre, hm⟩⟩
    · obtain ⟨iStr, v, hdig, hmem, hcase⟩ := ihi (index + 1) hm
      exact ⟨iStr, v, hdig, List.mem_cons_of_mem _ hmem, hcase⟩

theorem walkExpand_roundtrip (tokens : List PathPatternToken) :
    ∀ (node : Option Value) (segs caps : List String) (m : ExpandedPathMatch),
      m ∈ walkExpand node tokens segs caps →
      (∀ c ∈ m.captures, c ≠ "") →
      ∃ s2 c2, m.segments = segs ++ s2 ∧ m.captures = caps ++ c2 ∧
        matchPathTokens s2 tokens = some c2 ∧ materializePathTokens tokens c2 = some s2 := by
  induction tokens with
  | nil =>
    intro node segs caps m hm hc
    simp only [walkExpand, List.mem_singleton] at hm
    subst hm
    exact ⟨[], [], by simp, by simp, rfl, rfl⟩
  | cons token rest ih =>
    intro node segs caps m hm hc
    match hnode : node with
    | none => simp [walkExpand] at hm
    | some Value.vNull => simp [walkExpand] at hm
    | some (Value.vBool b) => simp [walkExpand] at hm
    | some (Value.vNum n) => simp [walkExpand] at hm
    | some (Value.vStr s) => simp [walkExpand] at hm
    | some (Value.vArr items) => simp [walkExpand] at hm
    | some (Value.vObj fields) =>
      match token with
      | PathPatternToken.literal value =>
        simp only [walkExpand] at hm
        by_cases hre : rest.isEmpty
        · rw [if_pos hre] at hm
          simp only [List.mem_singleton] at hm
          subst hm
          have hrest : rest = [] := by simpa [List.isEmpty_iff] using hre
          subst hrest
          refine ⟨[value], [], rfl, by simp, ?_, rfl⟩
          simp [matchPathTokens]
        · rw [if_neg hre] at hm
          by_cases hk : hasKey fields value
          · rw [if_pos hk] at hm
            obtain ⟨s2, c2, hseg, hcap, hmatch, hmat⟩ :=
              ih (lookupField fields value) (segs ++ [value]) caps m hm hc
            refine ⟨value :: s2, c2, by simp [hseg], hcap, ?_, ?_⟩
            · simp [matchPathTokens, hmatch]
            · simp [materializePathTokens, hmat]
          · rw [if_neg hk] at hm
            simp at hm
      | PathPatternToken.wildcard =>
        simp only [walkExpand] at hm
        obtain ⟨key, v, _, hcase⟩ := walkExpandEntries_shape fields rest segs caps m hm
        rcases hcase with ⟨hre, hmeq⟩ | ⟨hre, hmem⟩
        · subst hmeq
          have hrest : rest = [] := by simpa [List.isEmpty_iff] using hre
          subst hrest
          have hkey : key ≠ "" := hc key (by simp)
          refine ⟨[key], [key], rfl, rfl, ?_, ?_⟩
          · simp [matchPathTokens, hkey]
          · simp [materializePathTokens, hkey]
        · obtain ⟨s2, c2, hseg, hcap, hmatch, hmat⟩ :=
            ih (some v) (segs ++ [key]) (caps ++ [key]) m hmem hc
          have hkey : key ≠ "" := by
            apply hc key
            rw [hcap]
            simp
          refine ⟨key :: s2, key :: c2, by simp [hseg], by simp [hcap], ?_, ?_⟩
          · simp [matchPathTokens, hkey, hmatch]
          · simp [materializePathTokens, hkey, hmat]
      | PathPatternToken.array field =>
        simp only [walkExpand] at hm
        match hlook : lookupField fields field with
        | none => rw [hlook] at hm; simp at hm
        | some Value.vNull => rw [hlook] at hm; simp at hm
        | some (Value.vBool b) => rw [hlook] at hm; simp at hm
        | some (Value.vNum n) => rw [hlook] at hm; simp at hm
        | some (Value.vStr s) => rw [hlook] at hm; simp at hm
        | some (Value.vObj fields2) => rw [hlook] at hm; simp at hm
        | some (Value.vArr items) =>
          rw [hlook] at hm
          obtain ⟨iStr, v, hdig, _, hcase⟩ :=
            walkExpandItems_shape items field rest segs caps m 0 hm
          rcases hcase with ⟨hre, hmeq⟩ | ⟨hre, hmem⟩
          · subst hmeq
            have hrest : rest = [] := by simpa [List.isEmpty_iff] using hre
            subst hrest
            refine ⟨[field, iStr], [iStr], rfl, rfl, ?_, ?_⟩
            · simp [matchPathTokens, hdig]
            · simp [materializePathTokens, hdig]
          · obtain ⟨s2, c2, hseg, hcap, hmatch, hmat⟩ :=
              ih (some v) (segs ++ [field, iStr]) (caps ++ [iStr]) m hmem hc
            refine ⟨field :: iStr :: s2, iStr :: c2, by simp [hseg], by simp [hcap], ?_, ?_⟩
            · simp [matchPathTokens, hdig, hmatch]
            · simp [materializePathTokens, hdig, hmat]

/-- C5 counterexample: for the compiled models.providers wildcard entry and
a tree holding an empty mapping key, the expanded match does not survive the
match step, so the capture/materialize round trip fails as universally
stated. -/
theorem path_capture_roundtrip_counterexample :
    parsePathPattern "models.providers.*.apiKey" =
        some [PathPatternToken.literal "models", PathPatternToken.literal "providers",
          PathPatternToken.wildcard, PathPatternToken.literal "apiKey"] ∧
      ∃ m ∈ expandPathTokens
          (Value.vObj [("models", Value.vObj [("providers",
            Value.vObj [("", Value.vObj [("apiKey", Value.vStr "x")])])])])
          [PathPatternToken.literal "models", PathPatternToken.literal "providers",
            PathPatternToken.wildcard, PathPatternToken.literal "apiKey"],
        matchPathTokens m.segments
          [PathPatternToken.literal "models", PathPatternToken.literal "providers",
            PathPatternToken.wildcard, PathPatternToken.literal "apiKey"] = none := by
  constructor
  · rfl
  · refine ⟨⟨["models", "providers", "", "apiKey"], [""], some (Value.vStr "x")⟩, ?_, rfl⟩
    simp [expandPathTokens, walkExpand, walkExpandEntries, walkExpandItems, hasKey, lookupField]

/-- C5 (amended): for every token list and tree, every match produced by
expansion whose captured keys are all non-empty matches back against the
tokens with the same captures, and materializing those captures reproduces
exactly the matched segment list. -/
theorem path_capture_roundtrip (tokens : List PathPatternToken) (root : Value)
    (m : ExpandedPathMatch) (hm : m ∈ expandPathTokens root tokens)
    (hc : ∀ c ∈ m.captures, c ≠ "") :
    matchPathTokens m.segments tokens = some m.captures ∧
      materializePathTokens tokens m.captures = some m.segments := by
  obtain ⟨s2, c2, hseg, hcap, hmatch, hmat⟩ :=
    walkExpand_roundtrip tokens (some root) [] [] m hm hc
  simp only [List.nil_append] at hseg hcap
  rw [hseg, hcap]
  exact ⟨hmatch, hmat⟩

/-- Witness for C5 at the models.providers entry over a one-provider tree. -/
theorem path_capture_roundtrip_witness :
    matchPathTokens ["models", "providers", "openai", "apiKey"]
        [PathPatternToken.literal "models", PathPatternToken.literal "providers",
          PathPatternToken.wildcard, PathPatternToken.literal "apiKey"] =
      some ["openai"] := by
  have h :=
    path_capture_roundtrip
      [PathPatternToken.literal "models", PathPatternToken.literal "providers",
        PathPatternToken.wildcard, PathPatternToken.literal "apiKey"]
      (Value.vObj [("models", Value.vObj [("providers",
        Value.vObj [("openai", Value.vObj [("apiKey", Value.vStr "sk")])])])])
      ⟨["models", "providers", "openai", "apiKey"], ["openai"], some (Value.vStr "sk")⟩
      (by
        simp [expandPathTokens, walkExpand, walkExpandEntries, walkExpandItems, hasKey,
          lookupField])
      (by decide)
  exact h.1

theorem fsGet_cons (r c : String) (rest : FileSystemState) (q : String) :
    fsGet ((r, c) :: rest) q = if r = q then some c else fsGet rest q := rfl

theorem fsRemove_cons (r c : String) (rest : FileSystemState) (p : String) :
    fsRemove ((r, c) :: rest) p =
      if r = p then fsRemove rest p else (r, c) :: fsRemove rest p := by
  by_cases hr : r = p <;> simp [fsRemove, List.filter_cons, hr]

theorem fsGet_fsRemove_self (fs : FileSystemState) (p : String) :
    fsGet (fsRemove fs p) p = none := by
  induction fs with
  | nil => rfl
  | cons entry rest ih =>
    obtain ⟨r, c⟩ := entry
    rw [fsRemove_cons]
    by_cases hr : r = p
    · simp [hr, ih]
    · simp [fsGet_cons, hr, ih]

theorem fsGet_fsRemove_ne (fs : FileSystemState) (p q : String) (hq : q ≠ p) :
    fsGet (fsRemove fs p) q = fsGet fs q := by
  induction fs with
  | nil => rfl
  | cons entry rest ih =>
    obtain ⟨r, c⟩ := entry
    rw [fsRemove_cons]
    by_cases hr : r = p
    · have hrq : r ≠ q := by
        intro h
        exact hq (h ▸ hr)
      have hpq : p ≠ q := fun h => hq h.symm
      simp [fsGet_cons, hr, hrq, hpq, ih]
    · simp [fsGet_cons, hr, ih]

theorem fsGet_fsSet_self (fs : FileSystemState) (p c : String) :
    fsGet (fsSet fs p c) p = some c := by
  simp [fsSet, fsGet_cons]

theorem fsGet_fsSet_ne (fs : FileSystemState) (p c : String) (q : String) (hq : q ≠ p) :
    fsGet (fsSet fs p c) q = fsGet fs q := by
  have hpq : p ≠ q := fun h => hq h.symm
  simp [fsSet, fsGet_cons, hpq, fsGet_fsRemove_ne fs p q hq]

theorem fsGet_restore_self (fs0 fs : FileSystemState) (p : String) :
    fsGet (restoreFileSnapshot fs p (captureFileSnapshot fs0 p)) p = fsGet fs0 p := by
  unfold restoreFileSnapshot captureFileSnapshot
  match h : fsGet fs0 p with
  | some c => simp [h, fsGet_fsSet_self]
  | none => simp [h, fsGet_fsRemove_self]

theorem fsGet_restore_ne (fs : FileSystemState) (p : String) (snap : FileSnapshot)
    (q : String) (hq : q ≠ p) :
    fsGet (restoreFileSnapshot fs p snap) q = fsGet fs q := by
  unfold restoreFileSnapshot
  split
  · exact fsGet_fsSet_ne fs p snap.content q hq
  · exact fsGet_fsRemove_ne fs p q hq

theorem fsGet_restoreAllSnapshots (fs0 : FileSystemState) :
    ∀ (snaps : List (String × FileSnapshot)) (fs : FileSystemState) (p : String),
      (∀ pr ∈ snaps, pr.2 = captureFileSnapshot fs0 pr.1) →
      fsGet (restoreAllSnapshots fs snaps) p =
        if p ∈ snaps.map Prod.fst then fsGet fs0 p else fsGet fs p := by
  intro snaps
  induction snaps with
  | nil =>
    intro fs p h
    simp [restoreAllSnapshots]
  | cons pr rest ih =>
    intro fs p h
    obtain ⟨q, snap⟩ := pr
    have hsnap : snap = captureFileSnapshot fs0 q := h (q, snap) (List.mem_cons_self _ _)
    subst hsnap
    simp only [restoreAllSnapshots]
    rw [ih _ p (fun pr hpr => h pr (List.mem_cons_of_mem _ hpr))]
    by_cases hmem : p ∈ rest.map Prod.fst
    · simp [hmem]
    · by_cases hpq : p = q
      · subst hpq
        simp [hmem, fsGet_restore_self]
      · rw [if_neg hmem, fsGet_restore_ne _ _ _ _ hpq]
        simp [hmem, hpq]

theorem performApplyWrites_untouched :
    ∀ (writes : List (String × String)) (fs : FileSystemState) (failAt : Option Nat)
      (index : Nat) (p : String), p ∉ writes.map Prod.fst →
      fsGet (performApplyWrites fs writes failAt index).1 p = fsGet fs p := by
  intro writes
  induction writes with
  | nil => intro fs failAt index p _; rfl
  | cons w rest ih =>
    intro fs failAt index p hp
    obtain ⟨q, c⟩ := w
    simp only [List.map_cons, List.mem_cons] at hp
    push_neg at hp
    simp only [performApplyWrites]
    split
    · rfl
    · rw [ih _ _ _ p hp.2]
      exact fsGet_fsSet_ne fs q c p hp.1

theorem performApplyWrites_fails :
    ∀ (writes : List (String × String)) (fs : FileSystemState) (index k : Nat),
      index ≤ k → k < index + writes.length →
      (performApplyWrites fs writes (some k) index).2 = some k := by
  intro writes
  induction writes with
  | nil =>
    intro fs index k h1 h2
    simp at h2
    omega
  | cons w rest ih =>
    intro fs index k h1 h2
    obtain ⟨q, c⟩ := w
    by_cases hk : k = index
    · subst hk
      simp [performApplyWrites]
    · have hneq : (some k ≠ some index) := by
        intro h
        exact hk (Option.some.inj h)
      simp only [performApplyWrites, if_neg hneq]
      exact ih _ (index + 1) k (by omega) (by simp at h2 ⊢; omega)

theorem commit_rollback (fs : FileSystemState) (configPath configContent : String)
    (writes : List ApplyWrite) (k : Nat) (hk : k < writes.length + 1) :
    (commitSecretsApply fs configPath configContent writes (some k)).2 =
        Except.error ⟨k⟩ ∧
      ∀ p, fsGet (commitSecretsApply fs configPath configContent writes (some k)).1 p =
        fsGet fs p := by
  have hlen : ((configPath, configContent) ::
      writes.map (fun w => (w.path, w.content))).length = writes.length + 1 := by
    simp
  have hfail :=
    performApplyWrites_fails
      ((configPath, configContent) :: writes.map (fun w => (w.path, w.content))) fs 0 k
      (Nat.zero_le k) (by rw [hlen] at *; omega)
  have hpair :
      performApplyWrites fs
          ((configPath, configContent) :: writes.map (fun w => (w.path, w.content)))
          (some k) 0 =
        ((performApplyWrites fs
          ((configPath, configContent) :: writes.map (fun w => (w.path, w.content)))
          (some k) 0).1, some k) :=
    Prod.ext rfl hfail
  constructor
  · simp only [commitSecretsApply]
    rw [hpair]
  · intro p
    simp only [commitSecretsApply]
    rw [hpair]
    simp only []
    have hsnapinv : ∀ pr ∈ captureSnapshots fs (configPath :: writes.map (fun w => w.path)),
        pr.2 = captureFileSnapshot fs pr.1 := by
      intro pr hpr
      simp only [captureSnapshots, List.mem_map] at hpr
      obtain ⟨q, _, rfl⟩ := hpr
      rfl
    rw [fsGet_restoreAllSnapshots fs _ _ p hsnapinv]
    by_cases hmem :
        p ∈ (captureSnapshots fs (configPath :: writes.map (fun w => w.path))).map Prod.fst
    · rw [if_pos hmem]
    · rw [if_neg hmem]
      apply performApplyWrites_untouched
      intro hcontra
      apply hmem
      simp only [captureSnapshots, List.map_map, List.map_cons] at *
      simpa using hcontra
/-- C1: after an accepted plan, if any file write during the commit step of
runSecretsApply fails (injected as the failing write index, the main config
write being index 0), every snapshotted file - main config and every other
pending write target - is restored to its pre-apply content, the original
error is propagated as the cause of the raised error, and with the write
flag not set runSecretsApply returns before writing any file. -/
theorem runSecretsApply_rollback_and_dry_run (fs : FileSystemState)
    (configPath configContent : String) (writes : List ApplyWrite)
    (changedFiles : List String) (k : Nat) (hch : changedFiles ≠ [])
    (hk : k < writes.length + 1) :
    (runSecretsApply fs true changedFiles configPath configContent writes (some k)).2 =
        Except.error ⟨k⟩ ∧
      (∀ p, fsGet
        (runSecretsApply fs true changedFiles configPath configContent writes (some k)).1 p =
          fsGet fs p) ∧
      (∀ (fs2 : FileSystemState) (changedFiles2 : List String)
        (configPath2 configContent2 : String) (writes2 : List ApplyWrite)
        (failAt2 : Option Nat),
        (runSecretsApply fs2 false changedFiles2 configPath2 configContent2 writes2
          failAt2).1 = fs2) := by
  have hempty : changedFiles.isEmpty = false := by
    cases changedFiles with
    | nil => exact absurd rfl hch
    | cons a l => rfl
  have hcommit := commit_rollback fs configPath configContent writes k hk
  have hpair : commitSecretsApply fs configPath configContent writes (some k) =
      ((commitSecretsApply fs configPath configContent writes (some k)).1,
        Except.error ⟨k⟩) :=
    Prod.ext rfl hcommit.1
  refine ⟨?_, ?_, ?_⟩
  · simp only [runSecretsApply, hempty]
    rw [hpair]
    simp
  · intro p
    simp only [runSecretsApply, hempty]
    rw [hpair]
    simpa using hcommit.2 p
  · intro fs2 changedFiles2 configPath2 configContent2 writes2 failAt2
    rfl

/-- Witness for C1: the failing env write rolls the config file back. -/
theorem runSecretsApply_rollback_and_dry_run_witness :
    (runSecretsApply [("cfg", "old")] true ["cfg"] "cfg" "new"
          [⟨"env", "x"⟩] (some 1)).2 = Except.error ⟨1⟩ ∧
      fsGet (runSecretsApply [("cfg", "old")] true ["cfg"] "cfg" "new"
          [⟨"env", "x"⟩] (some 1)).1 "cfg" = some "old" := by
  have h :=
    runSecretsApply_rollback_and_dry_run [("cfg", "old")] "cfg" "new" [⟨"env", "x"⟩]
      ["cfg"] 1 (by decide) (by decide)
  exact ⟨h.1, by rw [h.2.1 "cfg"]; rfl⟩

theorem toResolvedPlanTarget_fields (entry : CompiledTargetRegistryEntry)
    (segs captures : List String) (res : ResolvedPlanTarget)
    (h : toResolvedPlanTarget entry segs captures = some res) :
    res.entry = entry ∧ res.pathSegments = segs := by
  unfold toResolvedPlanTarget at h
  cases hrt : entry.refPathTokens with
  | none =>
    rw [hrt] at h
    dsimp only at h
    simp only [Option.some.injEq] at h
    subst h
    exact ⟨rfl, rfl⟩
  | some refTokens =>
    rw [hrt] at h
    dsimp only at h
    cases hmz : materializePathTokens refTokens captures with
    | none =>
      rw [hmz] at h
      simp at h
    | some refSegments =>
      rw [hmz] at h
      simp only [Option.some.injEq] at h
      subst h
      exact ⟨rfl, rfl⟩

theorem resolvePlanTargetLoop_sound (pathSegments : List String)
    (providerId accountId : Option String) :
    ∀ (entries : List CompiledTargetRegistryEntry) (res : ResolvedPlanTarget),
      resolvePlanTargetLoop entries pathSegments providerId accountId = some res →
      res.entry ∈ entries ∧ res.entry.includeInPlan = true ∧ res.pathSegments = pathSegments ∧
        (∃ captures, matchPathTokens pathSegments res.entry.pathTokens = some captures) ∧
        candidateIdMatches providerId res.providerId = true ∧
        candidateIdMatches accountId res.accountId = true := by
  intro entries
  induction entries with
  | nil => intro res h; simp [resolvePlanTargetLoop] at h
  | cons entry rest ih =>
    intro res h
    simp only [resolvePlanTargetLoop] at h
    by_cases hinc : entry.includeInPlan
    · rw [if_neg (by simp [hinc])] at h
      match hmatch : matchPathTokens pathSegments entry.pathTokens with
      | none =>
        rw [hmatch] at h
        dsimp only at h
        obtain ⟨hmem, hrest⟩ := ih res h
        exact ⟨List.mem_cons_of_mem _ hmem, hrest⟩
      | some captures =>
        rw [hmatch] at h
        dsimp only at h
        match hres : toResolvedPlanTarget entry pathSegments captures with
        | none =>
          rw [hres] at h
          dsimp only at h
          obtain ⟨hmem, hrest⟩ := ih res h
          exact ⟨List.mem_cons_of_mem _ hmem, hrest⟩
        | some resolved =>
          rw [hres] at h
          dsimp only at h
          by_cases hids : candidateIdMatches providerId resolved.providerId &&
              candidateIdMatches accountId resolved.accountId
          · rw [if_pos hids] at h
            injection h with h2
            subst h2
            obtain ⟨hent, hsegs⟩ :=
              toResolvedPlanTarget_fields entry pathSegments captures resolved hres
            rw [Bool.and_eq_true] at hids
            exact ⟨by rw [hent]; exact List.mem_cons_self _ _, by rw [hent]; exact hinc, hsegs,
              ⟨captures, by rw [hent]; exact hmatch⟩, hids.1, hids.2⟩
          · rw [if_neg hids] at h
            obtain ⟨hmem, hrest⟩ := ih res h
            exact ⟨List.mem_cons_of_mem _ hmem, hrest⟩
    · rw [if_pos (by simp [hinc])] at h
      obtain ⟨hmem, hrest⟩ := ih res h
      exact ⟨List.mem_cons_of_mem _ hmem, hrest⟩

theorem candidateIdMatches_spec (supplied extracted : Option String)
    (h : candidateIdMatches supplied extracted = true) :
    ∀ s, supplied = some s → jsTrim s ≠ "" → extracted = some s := by
  intro s hs hne
  subst hs
  unfold candidateIdMatches at h
  dsimp only at h
  rw [if_pos hne] at h
  exact of_decide_eq_true h

/-- C7: every plan-target candidate accepted by resolveValidatedPlanTarget
has a known type, a non-blank path whose canonical segments are non-empty,
free of __proto__/prototype/constructor and re-serialize to exactly the
trimmed path, resolves to a plan-included registry entry of that type whose
pattern matches the path, and any non-blank caller-supplied providerId or
accountId equals the extracted one; a candidate violating any of these is
rejected. -/
theorem plan_target_validation_sound (registry : List CompiledTargetRegistryEntry)
    (candidate : PlanTargetCandidate) (res : ResolvedPlanTarget)
    (h : resolveValidatedPlanTarget registry candidate = some res) :
    isKnownSecretTargetType registry candidate.type = true ∧
      (∃ p, candidate.path = some p ∧ jsTrim p ≠ "" ∧
        planCandidateSegments candidate (jsTrim p) ≠ [] ∧
        hasForbiddenPathSegment (planCandidateSegments candidate (jsTrim p)) = false ∧
        jsTrim p = toDotPath (planCandidateSegments candidate (jsTrim p)) ∧
        res.pathSegments = planCandidateSegments candidate (jsTrim p)) ∧
      res.entry ∈ targetsByType registry (candidate.type.getD "") ∧
      res.entry.includeInPlan = true ∧
      (∃ captures, matchPathTokens res.pathSegments res.entry.pathTokens = some captures) ∧
      (∀ s, candidate.providerId = some s → jsTrim s ≠ "" → res.providerId = some s) ∧
      (∀ s, candidate.accountId = some s → jsTrim s ≠ "" → res.accountId = some s) := by
  unfold resolveValidatedPlanTarget at h
  cases hknown : isKnownSecretTargetType registry candidate.type with
  | false => rw [hknown] at h; simp at h
  | true =>
    rw [hknown] at h
    dsimp only at h
    match hpath : candidate.path with
    | none =>
      rw [hpath] at h
      simp at h
    | some p =>
      rw [hpath] at h
      dsimp only at h
      by_cases htrim : jsTrim p = ""
      · rw [if_pos htrim] at h
        simp at h
      · rw [if_neg htrim] at h
        by_cases hguard : (planCandidateSegments candidate (jsTrim p)).isEmpty ||
            hasForbiddenPathSegment (planCandidateSegments candidate (jsTrim p)) ||
            decide (jsTrim p ≠ toDotPath (planCandidateSegments candidate (jsTrim p)))
        · rw [if_pos hguard] at h
          simp at h
        · rw [if_neg hguard] at h
          simp only [Bool.or_eq_true, decide_eq_true_eq, not_or] at hguard
          push_neg at hguard
          obtain ⟨⟨hempt, hforb⟩, hser⟩ := hguard
          unfold resolvePlanTargetAgainstRegistry at h
          by_cases hentries : (targetsByType registry (candidate.type.getD "")).isEmpty
          · rw [if_pos hentries] at h
            simp at h
          · rw [if_neg hentries] at h
            obtain ⟨hmem, hinc, hsegs, hcaps, hpid, haid⟩ :=
              resolvePlanTargetLoop_sound (planCandidateSegments candidate (jsTrim p))
                candidate.providerId candidate.accountId _ res h
            refine ⟨rfl, ⟨p, rfl, htrim, ?_, ?_, ?_, hsegs⟩, hmem, hinc, hsegs ▸ hcaps,
              candidateIdMatches_spec _ _ hpid, candidateIdMatches_spec _ _ haid⟩
            · simpa [List.isEmpty_iff] using hempt
            · simpa using hforb
            · simpa using hser

/-- Witness for C7: an accepted models-provider api key target. -/
theorem plan_target_validation_sound_witness :
    isKnownSecretTargetType [sampleModelsProvidersEntry]
        (some "models.providers.apiKey") = true ∧
      (⟨sampleModelsProvidersEntry, ["models", "providers", "openai", "apiKey"], none,
          some "openai", none⟩ : ResolvedPlanTarget).entry.includeInPlan = true := by
  have h :=
    plan_target_validation_sound [sampleModelsProvidersEntry]
      { type := some "models.providers.apiKey",
        path := some "models.providers.openai.apiKey",
        pathSegments := some ["models", "providers", "openai", "apiKey"],
        providerId := some "openai" }
      ⟨sampleModelsProvidersEntry, ["models", "providers", "openai", "apiKey"], none,
        some "openai", none⟩
      (by rfl)
  exact ⟨h.1, h.2.2.2.1⟩

/-- C8 (amended): the secrets.resolve handler responds INVALID_REQUEST
without invoking the underlying resolver whenever any requested target id
that is non-blank after trimming is unknown (blank ids are dropped by
normalization before the check); with no active runtime snapshot the
resolver throws and the handler responds UNAVAILABLE; on success it
responds with ok, assignments and diagnostics. -/
theorem secrets_resolve_handler_spec {Snap : Type} (knownIds : List String)
    (params : SecretsResolveParamsShape)
    (resolveSecrets : String → List String → Except String SecretsResolveOkData)
    (collect : Snap → String → List String → Except String SecretsResolveOkData)
    (data : SecretsResolveOkData) :
    ((∃ t ∈ (params.targetIds.map jsTrim).filter (fun t => t ≠ ""),
        knownIds.contains t = false) →
      ∃ msg, secretsResolveHandler knownIds resolveSecrets params =
        (SecretsResolveResponse.failure GatewayErrorCode.INVALID_REQUEST msg, false)) ∧
    (validateSecretsResolveParams params = true → jsTrim params.commandName ≠ "" →
      (∀ t ∈ (params.targetIds.map jsTrim).filter (fun t => t ≠ ""),
        knownIds.contains t = true) →
      secretsResolveHandler knownIds
          (resolveCommandSecretsFromActiveRuntimeSnapshot (none : Option Snap) collect)
          params =
        (SecretsResolveResponse.failure GatewayErrorCode.UNAVAILABLE
          "Secrets runtime snapshot is not active.", true)) ∧
    (validateSecretsResolveParams params = true → jsTrim params.commandName ≠ "" →
      (∀ t ∈ (params.targetIds.map jsTrim).filter (fun t => t ≠ ""),
        knownIds.contains t = true) →
      resolveSecrets (jsTrim params.commandName)
          ((params.targetIds.map jsTrim).filter (fun t => t ≠ "")) = Except.ok data →
      validateSecretsResolveResultPayload data = true →
      secretsResolveHandler knownIds resolveSecrets params =
        (SecretsResolveResponse.success data.assignments data.diagnostics, true)) := by
  refine ⟨?_, ?_, ?_⟩
  · intro hunknown
    by_cases hv : validateSecretsResolveParams params
    · by_cases hcn : jsTrim params.commandName = ""
      · exact ⟨"invalid secrets.resolve params: commandName", by
          simp only [secretsResolveHandler, hv, hcn]
          simp⟩
      · cases hfind : ((params.targetIds.map jsTrim).filter (fun t => t ≠ "")).find?
            (fun t => !knownIds.contains t) with
        | none =>
          exfalso
          obtain ⟨t, hmem, hfalse⟩ := hunknown
          have hmemk := List.find?_eq_none.mp hfind t hmem
          simp only [Bool.not_eq_true'] at hmemk
          have h3 : knownIds.contains t = true := by simpa using hmemk
          rw [hfalse] at h3
          cases h3
        | some u =>
          exact ⟨"invalid secrets.resolve params: unknown target id \"" ++ u ++ "\"", by
            simp only [secretsResolveHandler, hv, hcn]
            simp only [hfind]
            simp [hcn]⟩
    · exact ⟨"invalid secrets.resolve params: " ++
          (if params.commandName = "" then "commandName" else "targetIds"), by
        simp [secretsResolveHandler, hv]⟩
  · intro hv hcn hall
    have hfind : ((params.targetIds.map jsTrim).filter (fun t => t ≠ "")).find?
        (fun t => !knownIds.contains t) = none := by
      rw [List.find?_eq_none]
      intro t hmem
      simpa using hall t hmem
    simp only [secretsResolveHandler, hv, hfind]
    simp [hcn, resolveCommandSecretsFromActiveRuntimeSnapshot]
  · intro hv hcn hall hres hvalid
    have hfind : ((params.targetIds.map jsTrim).filter (fun t => t ≠ "")).find?
        (fun t => !knownIds.contains t) = none := by
      rw [List.find?_eq_none]
      intro t hmem
      simpa using hall t hmem
    simp only [ne_eq, decide_not] at hres
    simp only [secretsResolveHandler, hv, hfind]
    simp [hcn, hres, hvalid]

/-- C8 counterexample: a whitespace-only requested target id is not a known
registry id, yet the handler strips it and responds with success instead of
INVALID_REQUEST. -/
theorem secrets_resolve_handler_counterexample :
    (["talk.apiKey"].contains "   " = false) ∧
      secretsResolveHandler ["talk.apiKey"]
          (resolveCommandSecretsFromActiveRuntimeSnapshot (some ())
            (fun _ _ _ => Except.ok ⟨[], []⟩))
          ⟨"memory status", ["   "]⟩ =
        (SecretsResolveResponse.success [] [], true) := by
  exact ⟨rfl, rfl⟩

/-- Witness for C8 at an unknown non-blank target id. -/
theorem secrets_resolve_handler_spec_witness :
    ∃ msg, secretsResolveHandler ["talk.apiKey"]
        (fun _ _ => Except.ok ⟨[], []⟩) ⟨"memory status", ["unknown.target"]⟩ =
      (SecretsResolveResponse.failure GatewayErrorCode.INVALID_REQUEST msg, false) :=
  (@secrets_resolve_handler_spec Unit ["talk.apiKey"]
      ⟨"memory status", ["unknown.target"]⟩ (fun _ _ => Except.ok ⟨[], []⟩)
      (fun _ _ _ => Except.ok ⟨[], []⟩) ⟨[], []⟩).1
    ⟨"unknown.target", by decide, by decide⟩

theorem pushWarning_warnings_sub {w : SecretResolverWarning} {ctx : ResolverCtx}
    {warning : SecretResolverWarning} (h : w ∈ ctx.warnings) :
    w ∈ (pushWarning ctx warning).warnings := by
  unfold pushWarning
  split
  · exact h
  · exact List.mem_append_left _ h

theorem pushInactive_assignments (ctx : ResolverCtx) (p : String) (r : Option String) :
    (pushInactiveSurfaceWarning ctx p r).assignments = ctx.assignments := by
  unfold pushInactiveSurfaceWarning pushWarning
  split <;> rfl

theorem mem_csia_assignments (a : SecretAssignmentRec) (v : Option Value) (p : String)
    (exp : SecretExpectedKind) (d : SecretDefaults) (ctx : ResolverCtx)
    (act : Option Bool) (r : Option String) :
    a ∈ (collectSecretInputAssignment v p exp d ctx act r).assignments ↔
      (a ∈ ctx.assignments ∨
        ∃ ref, coerceSecretRef v d = some ref ∧ act ≠ some false ∧
          a = ⟨ref, p, exp⟩) := by
  unfold collectSecretInputAssignment
  cases hc : coerceSecretRef v d with
  | none => simp
  | some ref =>
    dsimp only
    by_cases hact : act = some false
    · rw [if_pos hact, pushInactive_assignments]
      constructor
      · exact Or.inl
      · rintro (h | ⟨ref2, h1, h2, h3⟩)
        · exact h
        · exact absurd hact h2
    · rw [if_neg hact]
      unfold pushAssignment
      simp only [List.mem_append, List.mem_singleton]
      constructor
      · rintro (h | h)
        · exact Or.inl h
        · exact Or.inr ⟨ref, rfl, hact, h⟩
      · rintro (h | ⟨ref2, h1, h2, h3⟩)
        · exact Or.inl h
        · injection h1 with h1
          rw [h3, ← h1]
          exact Or.inr rfl

theorem csia_warnings_mono {w : SecretResolverWarning} (v : Option Value) (p : String)
    (exp : SecretExpectedKind) (d : SecretDefaults) (ctx : ResolverCtx)
    (act : Option Bool) (r : Option String) (h : w ∈ ctx.warnings) :
    w ∈ (collectSecretInputAssignment v p exp d ctx act r).warnings := by
  unfold collectSecretInputAssignment
  cases coerceSecretRef v d with
  | none => exact h
  | some ref =>
    dsimp only
    split
    · exact pushWarning_warnings_sub h
    · exact h

theorem csia_warningKeys_sub {k : String} (v : Option Value) (p : String)
    (exp : SecretExpectedKind) (d : SecretDefaults) (ctx : ResolverCtx)
    (act : Option Bool) (r : Option String)
    (h : k ∈ (collectSecretInputAssignment v p exp d ctx act r).warningKeys) :
    k ∈ ctx.warningKeys ∨
      k = warningKey ⟨SecretResolverWarningCode.SECRETS_REF_IGNORED_INACTIVE_SURFACE, p,
        inactiveSurfaceMessage p r⟩ := by
  unfold collectSecretInputAssignment at h
  cases hc : coerceSecretRef v d with
  | none =>
    rw [hc] at h
    exact Or.inl h
  | some ref =>
    rw [hc] at h
    dsimp only at h
    split at h
    · unfold pushInactiveSurfaceWarning pushWarning at h
      split at h
      · exact Or.inl h
      · dsimp only at h
        rcases List.mem_append.mp h with h | h
        · exact Or.inl h
        · exact Or.inr (List.mem_singleton.mp h)
    · exact Or.inl h

theorem csia_inactive_warn (v : Option Value) (p : String) (exp : SecretExpectedKind)
    (d : SecretDefaults) (ctx : ResolverCtx) (r : Option String) (ref : SecretRef)
    (hc : coerceSecretRef v d = some ref)
    (hfresh : ctx.warningKeys.contains
      (warningKey ⟨SecretResolverWarningCode.SECRETS_REF_IGNORED_INACTIVE_SURFACE, p,
        inactiveSurfaceMessage p r⟩) = false) :
    (⟨SecretResolverWarningCode.SECRETS_REF_IGNORED_INACTIVE_SURFACE, p,
        inactiveSurfaceMessage p r⟩ : SecretResolverWarning) ∈
      (collectSecretInputAssignment v p exp d ctx (some false) r).warnings := by
  unfold collectSecretInputAssignment
  rw [hc]
  dsimp only
  rw [if_pos rfl]
  unfold pushInactiveSurfaceWarning pushWarning
  rw [hfresh]
  simp

theorem contains_eq_false_of_forall {l : List String} {k : String}
    (h : ∀ x ∈ l, ¬x = k) : l.contains k = false := by
  cases hcc : l.contains k with
  | false => rfl
  | true => exact absurd rfl (h k (by simpa using hcc))

theorem gateway_remote_block (defaults : SecretDefaults)
    (tokVal pwVal : Option Value) (tokRef pwRef : SecretRef)
    (re tokGate pwGate : Bool) (ctx1 : ResolverCtx)
    (htok : coerceSecretRef tokVal defaults = some tokRef)
    (hpw : coerceSecretRef pwVal defaults = some pwRef)
    (hA : ∀ a ∈ ctx1.assignments, SecretAssignmentRec.path a = "gateway.auth.password")
    (hK : ∀ k ∈ ctx1.warningKeys,
      k = warningKey ⟨SecretResolverWarningCode.SECRETS_REF_IGNORED_INACTIVE_SURFACE,
        "gateway.auth.password",
        inactiveSurfaceMessage "gateway.auth.password"
          (some "gateway.auth.mode is not \"password\".")⟩) :
    ((⟨tokRef, "gateway.remote.token", SecretExpectedKind.expString⟩ : SecretAssignmentRec) ∈
        (gatewayRemoteCollect defaults tokVal pwVal re tokGate pwGate ctx1).assignments ↔
      (re && tokGate) = true) ∧
    ((re && tokGate) = false →
      (⟨SecretResolverWarningCode.SECRETS_REF_IGNORED_INACTIVE_SURFACE, "gateway.remote.token",
          inactiveSurfaceMessage "gateway.remote.token"
            (some (if !re then "gateway.remote is disabled."
              else "gateway.remote.token is inactive because local gateway auth token is configured."))⟩ :
        SecretResolverWarning) ∈
        (gatewayRemoteCollect defaults tokVal pwVal re tokGate pwGate ctx1).warnings) ∧
    ((⟨pwRef, "gateway.remote.password", SecretExpectedKind.expString⟩ : SecretAssignmentRec) ∈
        (gatewayRemoteCollect defaults tokVal pwVal re tokGate pwGate ctx1).assignments ↔
      (re && pwGate) = true) ∧
    ((re && pwGate) = false →
      (⟨SecretResolverWarningCode.SECRETS_REF_IGNORED_INACTIVE_SURFACE, "gateway.remote.password",
          inactiveSurfaceMessage "gateway.remote.password"
            (some (if !re then "gateway.remote is disabled."
              else "gateway.remote.password is inactive because local gateway auth password is configured."))⟩ :
        SecretResolverWarning) ∈
        (gatewayRemoteCollect defaults tokVal pwVal re tokGate pwGate ctx1).warnings) := by
  refine ⟨?_, ?_, ?_, ?_⟩
  · unfold gatewayRemoteCollect
    rw [mem_csia_assignments, mem_csia_assignments]
    constructor
    · rintro ((h | ⟨ref, h1, h2, h3⟩) | ⟨ref, h1, h2, h3⟩)
      · have hpth := hA _ h
        simp at hpth
      · cases hb : (re && tokGate) with
        | true => rfl
        | false => exact absurd (by rw [hb]) h2
      · have hpth := congrArg SecretAssignmentRec.path h3
        simp at hpth
    · intro hb
      exact Or.inl (Or.inr ⟨tokRef, htok, by rw [hb]; simp, rfl⟩)
  · intro hb
    unfold gatewayRemoteCollect
    apply csia_warnings_mono
    rw [hb]
    apply csia_inactive_warn _ _ _ _ _ _ tokRef htok
    apply contains_eq_false_of_forall
    intro x hx
    rw [hK x hx]
    cases re <;> decide
  · unfold gatewayRemoteCollect
    rw [mem_csia_assignments, mem_csia_assignments]
    constructor
    · rintro ((h | ⟨ref, h1, h2, h3⟩) | ⟨ref, h1, h2, h3⟩)
      · have hpth := hA _ h
        simp at hpth
      · have hpth := congrArg SecretAssignmentRec.path h3
        simp at hpth
      · cases hb : (re && pwGate) with
        | true => rfl
        | false => exact absurd (by rw [hb]) h2
    · intro hb
      exact Or.inr ⟨pwRef, hpw, by rw [hb]; simp, rfl⟩
  · intro hb
    unfold gatewayRemoteCollect
    rw [hb]
    apply csia_inactive_warn _ _ _ _ _ _ pwRef hpw
    apply contains_eq_false_of_forall
    intro x hx
    rcases csia_warningKeys_sub _ _ _ _ _ _ _ hx with h | h
    · rw [hK x h]
      cases re <;> decide
    · rw [h]
      cases re <;> decide

/-- C2: with a gateway.remote section present and secret refs at
gateway.remote.token and gateway.remote.password, the token (resp. password)
assignment is collected iff remote is enabled AND (remote mode is on OR a
remote url is configured OR no local gateway auth token (resp. password)
secret is configured); when that condition is false an inactive-surface
diagnostic is recorded instead. In particular a configured local-mode
secret alone does not suppress the remote ref: remote mode or a configured
remote url re-activates it, contrary to the claim's unconditional
suppression. -/
theorem gateway_remote_activation (config : Value) (defaults : SecretDefaults)
    (gw remote : List (String × Value)) (tokRef pwRef : SecretRef)
    (hgw : objLookup config "gateway" = some (Value.vObj gw))
    (hrem : lookupField gw "remote" = some (Value.vObj remote))
    (htok : coerceSecretRef (lookupField remote "token") defaults = some tokRef)
    (hpw : coerceSecretRef (lookupField remote "password") defaults = some pwRef) :
    ((⟨tokRef, "gateway.remote.token", SecretExpectedKind.expString⟩ : SecretAssignmentRec) ∈
        (collectGatewayAssignments config defaults emptyResolverCtx).assignments ↔
      (!isFalseValue (lookupField remote "enabled") &&
        (isStrValue (lookupField gw "mode") "remote" ||
          decide (getStrTrim (lookupField remote "url") ≠ "") ||
          !hasConfiguredSecretInput (optLookup (lookupField gw "auth") "token") defaults)) =
        true) ∧
    ((!isFalseValue (lookupField remote "enabled") &&
        (isStrValue (lookupField gw "mode") "remote" ||
          decide (getStrTrim (lookupField remote "url") ≠ "") ||
          !hasConfiguredSecretInput (optLookup (lookupField gw "auth") "token") defaults)) =
        false →
      (⟨SecretResolverWarningCode.SECRETS_REF_IGNORED_INACTIVE_SURFACE, "gateway.remote.token",
          inactiveSurfaceMessage "gateway.remote.token"
            (some (if !(!isFalseValue (lookupField remote "enabled")) then
                "gateway.remote is disabled."
              else
                "gateway.remote.token is inactive because local gateway auth token is configured."))⟩ :
        SecretResolverWarning) ∈
        (collectGatewayAssignments config defaults emptyResolverCtx).warnings) ∧
    ((⟨pwRef, "gateway.remote.password", SecretExpectedKind.expString⟩ : SecretAssignmentRec) ∈
        (collectGatewayAssignments config defaults emptyResolverCtx).assignments ↔
      (!isFalseValue (lookupField remote "enabled") &&
        (isStrValue (lookupField gw "mode") "remote" ||
          decide (getStrTrim (lookupField remote "url") ≠ "") ||
          !hasConfiguredSecretInput (optLookup (lookupField gw "auth") "password") defaults)) =
        true) ∧
    ((!isFalseValue (lookupField remote "enabled") &&
        (isStrValue (lookupField gw "mode") "remote" ||
          decide (getStrTrim (lookupField remote "url") ≠ "") ||
          !hasConfiguredSecretInput (optLookup (lookupField gw "auth") "password") defaults)) =
        false →
      (⟨SecretResolverWarningCode.SECRETS_REF_IGNORED_INACTIVE_SURFACE, "gateway.remote.password",
          inactiveSurfaceMessage "gateway.remote.password"
            (some (if !(!isFalseValue (lookupField remote "enabled")) then
                "gateway.remote is disabled."
              else
                "gateway.remote.password is inactive because local gateway auth password is configured."))⟩ :
        SecretResolverWarning) ∈
        (collectGatewayAssignments config defaults emptyResolverCtx).warnings) := by
  unfold collectGatewayAssignments
  rw [hgw]
  dsimp only
  rw [hrem]
  dsimp only
  refine gateway_remote_block defaults (lookupField remote "token")
    (lookupField remote "password") tokRef pwRef
    (!isFalseValue (lookupField remote "enabled"))
    (isStrValue (lookupField gw "mode") "remote" ||
      decide (getStrTrim (lookupField remote "url") ≠ "") ||
      !hasConfiguredSecretInput (optLookup (lookupField gw "auth") "token") defaults)
    (isStrValue (lookupField gw "mode") "remote" ||
      decide (getStrTrim (lookupField remote "url") ≠ "") ||
      !hasConfiguredSecretInput (optLookup (lookupField gw "auth") "password") defaults)
    _ htok hpw ?_ ?_
  · cases hauth : lookupField gw "auth" with
    | none => intro a ha; simp [emptyResolverCtx] at ha
    | some v =>
      cases v with
      | vObj auth =>
        intro a ha
        dsimp only at ha
        rw [mem_csia_assignments] at ha
        rcases ha with ha | ⟨ref, h1, h2, rfl⟩
        · simp [emptyResolverCtx] at ha
        · rfl
      | vNull => intro a ha; simp [emptyResolverCtx] at ha
      | vBool b => intro a ha; simp [emptyResolverCtx] at ha
      | vNum n => intro a ha; simp [emptyResolverCtx] at ha
      | vStr s => intro a ha; simp [emptyResolverCtx] at ha
      | vArr items => intro a ha; simp [emptyResolverCtx] at ha
  · cases hauth : lookupField gw "auth" with
    | none => intro k hk; simp [emptyResolverCtx] at hk
    | some v =>
      cases v with
      | vObj auth =>
        intro k hk
        dsimp only at hk
        rcases csia_warningKeys_sub _ _ _ _ _ _ _ hk with h | h
        · simp [emptyResolverCtx] at h
        · exact h
      | vNull => intro k hk; simp [emptyResolverCtx] at hk
      | vBool b => intro k hk; simp [emptyResolverCtx] at hk
      | vNum n => intro k hk; simp [emptyResolverCtx] at hk
      | vStr s => intro k hk; simp [emptyResolverCtx] at hk
      | vArr items => intro k hk; simp [emptyResolverCtx] at hk

/-- C2 counterexample to the claimed unconditional suppression: remote mode
is on and a local plaintext gateway auth token is configured, yet the
gateway.remote.token ref is still collected as an assignment and no
inactive-surface diagnostic is recorded. -/
theorem gateway_remote_counterexample :
    hasConfiguredSecretInput (optLookup (lookupField c2cGateway "auth") "token") {} = true ∧
    (collectGatewayAssignments c2cConfig {} emptyResolverCtx).assignments =
      [⟨⟨SecretRefSource.env, "default", "GW_TOKEN"⟩, "gateway.remote.token",
        SecretExpectedKind.expString⟩] ∧
    (collectGatewayAssignments c2cConfig {} emptyResolverCtx).warnings = [] :=
  ⟨rfl, rfl, rfl⟩

/-- C2 witness: on the concrete witness configuration (remote refs, no local
auth) the token activation condition holds and the assignment is collected. -/
theorem gateway_remote_activation_witness :
    (⟨⟨SecretRefSource.env, "default", "GW_TOKEN"⟩, "gateway.remote.token",
        SecretExpectedKind.expString⟩ : SecretAssignmentRec) ∈
      (collectGatewayAssignments c2wConfig {} emptyResolverCtx).assignments :=
  ((gateway_remote_activation c2wConfig {} c2wGateway c2wRemoteFields
      ⟨SecretRefSource.env, "default", "GW_TOKEN"⟩
      ⟨SecretRefSource.env, "default", "GW_PASSWORD"⟩
      rfl rfl rfl rfl).1).mpr (by decide)

/-- C3: refuted. The Telegram collector the program wires in
(runtime-config-collectors-channels.ts, imported by
runtime-config-collectors.ts) has no tokenFile gate: for EVERY configured
tokenFile string, a botToken secret ref on either the no-accounts surface
or an explicit account surface still produces its assignment and no
diagnostic is recorded, so a configured tokenFile never inactivates the
botToken ref. -/
theorem telegram_tokenfile_no_gate (bt : Value) (defaults : SecretDefaults)
    (r : SecretRef) (hr : coerceSecretRef (some bt) defaults = some r) :
    (∀ tf : String,
      collectTelegramAssignments (c3TopConfig bt tf) defaults emptyResolverCtx =
        ⟨[], [], [⟨r, "channels.telegram.botToken", SecretExpectedKind.expString⟩]⟩) ∧
    (∀ tf : String,
      collectTelegramAssignments (c3AccConfig bt tf) defaults emptyResolverCtx =
        ⟨[], [],
          [⟨r, "channels.telegram.accounts.work.botToken",
            SecretExpectedKind.expString⟩]⟩) := by
  have hcn : coerceSecretRef none defaults = none := rfl
  constructor
  · intro tf
    simp [collectTelegramAssignments, c3TopConfig, c3TopTelegram,
      resolveChannelAccountSurface, collectSimpleChannelFieldAssignments,
      isBaseFieldActiveForChannelSurface, telegramTopWebhookSecretActive,
      collectSecretInputAssignment, collectTelegramAccountWebhookSecrets,
      pushAssignment, emptyResolverCtx, objLookup, lookupField, hasKey, getStrTrim,
      isEnabledFields, isFalseValue, hcn, hr]
  · intro tf
    simp [collectTelegramAssignments, c3AccConfig, c3AccTelegram, c3AccAccount,
      resolveChannelAccountSurface, collectSimpleChannelFieldAssignments,
      isBaseFieldActiveForChannelSurface, telegramTopWebhookSecretActive,
      collectSecretInputAssignment, collectTelegramAccountWebhookSecrets,
      pushAssignment, emptyResolverCtx, objLookup, lookupField, hasKey, getStrTrim,
      isEnabledFields, isFalseValue, hcn, hr]

/-- C3 counterexample to the claimed tokenFile gate: a non-blank tokenFile
is configured next to a top-level botToken ref, yet the wired collector
still collects the botToken assignment and records no diagnostic. -/
theorem telegram_tokenfile_counterexample :
    jsTrim "/var/lib/telegram.token" ≠ "" ∧
    collectTelegramAssignments (c3TopConfig c3wBotToken "/var/lib/telegram.token") {}
        emptyResolverCtx =
      ⟨[], [],
        [⟨⟨SecretRefSource.env, "default", "TG_TOKEN"⟩, "channels.telegram.botToken",
          SecretExpectedKind.expString⟩]⟩ :=
  ⟨by decide, rfl⟩

/-- C3 witness: the explicit-account surface with a concrete ref and a
non-blank tokenFile still yields the per-account assignment. -/
theorem telegram_tokenfile_no_gate_witness :
    collectTelegramAssignments (c3AccConfig c3wBotToken "/var/lib/telegram.token") {}
        emptyResolverCtx =
      ⟨[], [],
        [⟨⟨SecretRefSource.env, "default", "TG_TOKEN"⟩,
          "channels.telegram.accounts.work.botToken", SecretExpectedKind.expString⟩]⟩ :=
  (telegram_tokenfile_no_gate c3wBotToken {}
      ⟨SecretRefSource.env, "default", "TG_TOKEN"⟩ rfl).2 "/var/lib/telegram.token"

theorem pushWarning_dedup (ctx : ResolverCtx) (w : SecretResolverWarning) :
    pushWarning (pushWarning ctx w) w = pushWarning ctx w := by
  unfold pushWarning
  by_cases h : ctx.warningKeys.contains (warningKey w)
  · rw [if_pos h, if_pos h]
  · rw [if_neg h]
    dsimp only
    rw [if_pos (by simp)]

/-- C4: sibling-ref precedence. When a Google Chat target carries both a
plaintext (non-ref) serviceAccount and a valid serviceAccountRef on an
active surface, the collector records exactly one
SECRETS_REF_OVERRIDES_PLAINTEXT warning for the target and one assignment
against the ref; pushWarning is idempotent on the (code, path, message)
key, so a repeat of the same warning leaves the context unchanged; and
applying the resolved batch writes the ref's resolved value over the
plaintext serviceAccount field. -/
theorem googlechat_sibling_ref_precedence (target : List (String × Value)) (path : String)
    (defaults : SecretDefaults) (plain : Value) (r : SecretRef) (active : Option Bool)
    (resolved : List (String × Value)) (v : Value)
    (hplain : lookupField target "serviceAccount" = some plain)
    (hnotref : coerceSecretRef (some plain) defaults = none)
    (href : coerceSecretRef (lookupField target "serviceAccountRef") defaults = some r)
    (hact : active ≠ some false)
    (hres : lookupField resolved (secretRefKey r) = some v)
    (hshape : isExpectedResolvedSecretValue v SecretExpectedKind.expStringOrObject = true) :
    (∀ reason,
      collectGoogleChatAccountAssignment target path defaults emptyResolverCtx active reason =
        ⟨[⟨SecretResolverWarningCode.SECRETS_REF_OVERRIDES_PLAINTEXT, path,
            path ++ ": serviceAccountRef is set; runtime will ignore plaintext serviceAccount."⟩],
          [warningKey ⟨SecretResolverWarningCode.SECRETS_REF_OVERRIDES_PLAINTEXT, path,
            path ++ ": serviceAccountRef is set; runtime will ignore plaintext serviceAccount."⟩],
          [⟨r, path ++ ".serviceAccount", SecretExpectedKind.expStringOrObject⟩]⟩) ∧
    (∀ ctx w, pushWarning (pushWarning ctx w) w = pushWarning ctx w) ∧
    applyResolvedServiceAccountAssignments target
        [⟨r, path ++ ".serviceAccount", SecretExpectedKind.expStringOrObject⟩] resolved =
      Except.ok (setFieldFn target "serviceAccount" v) := by
  refine ⟨?_, ?_, ?_⟩
  · intro reason
    simp [collectGoogleChatAccountAssignment, resolveSecretInputRef, href, hplain, hnotref,
      hact, pushWarning, pushAssignment, emptyResolverCtx]
  · intro ctx w
    exact pushWarning_dedup ctx w
  · simp [applyResolvedServiceAccountAssignments, hres, hshape]

/-- C4 witness: the concrete plaintext + file-ref target yields exactly the
override warning and the single assignment. -/
theorem googlechat_sibling_ref_precedence_witness :
    collectGoogleChatAccountAssignment c4wTarget "channels.googlechat" {} emptyResolverCtx
        (some true) none =
      ⟨[⟨SecretResolverWarningCode.SECRETS_REF_OVERRIDES_PLAINTEXT, "channels.googlechat",
          "channels.googlechat: serviceAccountRef is set; runtime will ignore plaintext serviceAccount."⟩],
        ["SECRETS_REF_OVERRIDES_PLAINTEXT:channels.googlechat:channels.googlechat: serviceAccountRef is set; runtime will ignore plaintext serviceAccount."],
        [⟨⟨SecretRefSource.file, "default", "/google/sa"⟩, "channels.googlechat.serviceAccount",
          SecretExpectedKind.expStringOrObject⟩]⟩ :=
  (googlechat_sibling_ref_precedence c4wTarget "channels.googlechat" {} (Value.vStr "plain-json")
      ⟨SecretRefSource.file, "default", "/google/sa"⟩ (some true) c4wResolved c4wResolvedValue
      rfl rfl rfl (by decide) rfl rfl).1 none

end OpenClaw
